import Mathlib

/-!
# Traffic-filter and protocol mappers of the UniFi firewall provider

A shallow embedding of `mapper_protocol.go` and `mapper_traffic.go`
(package `firewall`) together with the handful of Go runtime and
terraform-plugin-framework notions the two files rely on, followed by the
properties established about them.
-/

namespace UnifiFirewall

/-! ## Go strings -/

/-- Rune tables of Go's package `unicode` that `strings.ToUpper`,
`strings.ToLower` and `strings.EqualFold` consult for every rune. They belong
to the Go standard library, so the mappers take them as a parameter:
`ToUpper` and `ToLower` are the simple one-rune case mappings, `FoldEq`
decides whether two runes lie on the same simple-folding orbit. -/
structure UnicodeTables where
  ToUpper : Char → Char
  ToLower : Char → Char
  FoldEq : Char → Char → Bool

/-- Go `strings.ToUpper`: every rune is replaced by its upper-case mapping. -/
def stringsToUpper (u : UnicodeTables) (s : String) : String :=
  String.mk (s.data.map u.ToUpper)

/-- Go `strings.ToLower`: every rune is replaced by its lower-case mapping. -/
def stringsToLower (u : UnicodeTables) (s : String) : String :=
  String.mk (s.data.map u.ToLower)

/-- Rune-by-rune comparison loop of `strings.EqualFold`. -/
def equalFoldRunes (u : UnicodeTables) : List Char → List Char → Bool
  | [], [] => true
  | sr :: s, tr :: t => (sr == tr || u.FoldEq sr tr) && equalFoldRunes u s t
  | _, _ => false

/-- Go `strings.EqualFold`: equality under simple Unicode case folding. -/
def stringsEqualFold (u : UnicodeTables) (s t : String) : Bool :=
  equalFoldRunes u s.data t.data

/-- Go `strings.Contains(s, substr)`. -/
def stringsContains (s substr : String) : Bool :=
  decide (substr.data <:+: s.data)

/-- Go's `unicode.ToUpper` on the runes met at concrete inputs: the runes
below U+0080, and U+00B5 (micro sign), U+0131 (dotless i) and U+017F (long s),
whose upper-case letters in the Unicode character database are U+039C, `I`
and `S`. Other runes are left as they are. -/
def goToUpper (c : Char) : Char :=
  if 'a' ≤ c ∧ c ≤ 'z' then Char.ofNat (c.toNat - 32)
  else if c = Char.ofNat 0xB5 then Char.ofNat 0x39C
  else if c = Char.ofNat 0x131 then 'I'
  else if c = Char.ofNat 0x17F then 'S'
  else c

/-- Go's `unicode.ToLower` on the runes met at concrete inputs: the runes
below U+0080, and U+0130 (dotted capital I), U+039C (capital mu) and U+212A
(Kelvin sign), whose lower-case letters are `i`, U+03BC and `k`. Other runes
are left as they are; in particular U+00B5, U+0131 and U+017F are lower-case
letters already. -/
def goToLower (c : Char) : Char :=
  if 'A' ≤ c ∧ c ≤ 'Z' then Char.ofNat (c.toNat + 32)
  else if c = Char.ofNat 0x130 then 'i'
  else if c = Char.ofNat 0x39C then Char.ofNat 0x3BC
  else if c = Char.ofNat 0x212A then 'k'
  else c

/-- A representative of the simple-folding orbit of a rune, for the orbits of
the ASCII letters: a letter and its other case, with U+212A joining `k`,
U+017F joining `s`; and for the orbit of U+00B5, U+039C and U+03BC. Any other
rune stands for itself. -/
def goFoldKey (c : Char) : Char :=
  if 'A' ≤ c ∧ c ≤ 'Z' then Char.ofNat (c.toNat + 32)
  else if c = Char.ofNat 0x212A then 'k'
  else if c = Char.ofNat 0x17F then 's'
  else if c = Char.ofNat 0xB5 ∨ c = Char.ofNat 0x39C then Char.ofNat 0x3BC
  else c

/-- Whether two runes lie on the same simple-folding orbit. -/
def goFoldEq (a b : Char) : Bool :=
  goFoldKey a == goFoldKey b

/-- The excerpt of Go's Unicode tables used at concrete inputs. -/
def goTables : UnicodeTables :=
  { ToUpper := goToUpper, ToLower := goToLower, FoldEq := goFoldEq }

/-! ## Go numbers -/

/-- A Go `float64`: a finite value `(-1)^neg * mant * 2^exp`, an infinity or
a NaN. -/
inductive GoFloat64 where
  | finite (neg : Bool) (mant : Nat) (exp : Int)
  | inf (neg : Bool)
  | nan
  deriving DecidableEq, Repr

/-- The rational value of a finite `float64`, sign included. -/
def GoFloat64.toRat : GoFloat64 → Option ℚ
  | .finite neg mant exp => some ((if neg then -1 else 1) * (mant : ℚ) * (2 : ℚ) ^ exp)
  | _ => none

/-- The magnitude `mant * 2^exp` rounded to an integer, ties to even: the
digits `strconv` prints for the verb `%.0f`. -/
def roundHalfEven (mant : Nat) : Int → Nat
  | Int.ofNat e => mant * 2 ^ e
  | Int.negSucc k =>
    let d := 2 ^ (k + 1)
    let q := mant / d
    let r := mant % d
    if 2 * r < d then q
    else if d < 2 * r then q + 1
    else if q % 2 = 0 then q else q + 1

/-- Go `fmt.Sprintf("%.0f", number)`. -/
def fmtSprintfF0 : GoFloat64 → String
  | .finite neg mant exp => (if neg then "-" else "") ++ toString (roundHalfEven mant exp)
  | .inf true => "-Inf"
  | .inf false => "+Inf"
  | .nan => "NaN"

/-- Go `int32`: the integers of 32 bits, two's complement. -/
abbrev GoInt32 := { v : Int // -2147483648 ≤ v ∧ v < 2147483648 }

/-- Go conversion `int32(x)` of an `int`: the low 32 bits, sign-extended. -/
def int32 (x : Int) : GoInt32 :=
  ⟨(x + 2147483648) % 4294967296 - 2147483648, by omega⟩

/-! ## Go dynamic values -/

/-- The wire structure `unifi.MACAddressFilter`. A `[]string` is `none` when
the slice is nil and `some l` otherwise. -/
structure MACAddressFilter where
  MACAddresses : Option (List String)
  deriving DecidableEq, Repr

/-- A Go `interface{}` value as the mappers meet it: nil, a string, a
`float64`, a bool, a `[]interface{}`, a `map[string]interface{}` (its
entries in lookup order), or a `*unifi.MACAddressFilter` (`none` for the nil
pointer). -/
inductive GoValue where
  | nil
  | str (s : String)
  | float64 (f : GoFloat64)
  | bool (b : Bool)
  | slice (xs : List GoValue)
  | map (m : List (String × GoValue))
  | macAddressFilter (p : Option MACAddressFilter)

/-- A Go `map[string]interface{}`. -/
abbrev GoMap := List (String × GoValue)

/-- Go map index `m[key]`: the nil interface when the key is missing. -/
def GoMap.index (m : GoMap) (key : String) : GoValue :=
  (m.lookup key).getD GoValue.nil

/-! ## mapper_protocol.go -/

/-- Source `normalizeProtocolFilterType`. -/
def normalizeProtocolFilterType (u : UnicodeTables) (filterType : String) : String :=
  if stringsEqualFold u filterType "PROTOCOL" then "NAMED_PROTOCOL"
  else stringsToUpper u filterType

/-- Source `mapProtocolToAPI`; `none` is the nil map. -/
def mapProtocolToAPI (u : UnicodeTables) (filterType protocol : String) : Option GoMap :=
  if protocol = "" then none
  else
    let t := normalizeProtocolFilterType u filterType
    if t = "PRESET" then some [("preset", GoValue.str (stringsToUpper u protocol))]
    else if t = "PROTOCOL_NUMBER" then some [("number", GoValue.str protocol)]
    else some [("name", GoValue.str (stringsToUpper u protocol))]

/-- The loop of `mapProtocolFromAPI` over the probed keys: the first key whose
value is a non-empty string. -/
def probeKeys (protocol : GoMap) : List String → Option String
  | [] => none
  | key :: rest =>
    match protocol.index key with
    | GoValue.str value => if value ≠ "" then some value else probeKeys protocol rest
    | _ => probeKeys protocol rest

/-- Source `mapProtocolFromAPI`; `none` is the nil map. -/
def mapProtocolFromAPI (u : UnicodeTables) (protocol : Option GoMap) : String :=
  match protocol with
  | none => ""
  | some protocol =>
    match probeKeys protocol ["name", "preset", "number", "value"] with
    | some value => stringsToLower u value
    | none =>
      match protocol.index "number" with
      | GoValue.float64 number => fmtSprintfF0 number
      | _ => ""

/-! ## terraform-plugin-framework values -/

/-- Framework `types.String`: null, unknown or a known string. The zero value
of the Go type is null. -/
inductive TfString where
  | null
  | unknown
  | value (s : String)
  deriving DecidableEq, Repr

/-- Framework `types.Bool`. -/
inductive TfBool where
  | null
  | unknown
  | value (b : Bool)
  deriving DecidableEq, Repr

/-- Framework `types.Int32`. -/
inductive TfInt32 where
  | null
  | unknown
  | value (v : GoInt32)
  deriving DecidableEq, Repr

/-- Framework `types.Set` of strings: null, unknown, or known with its
elements in stored order. -/
inductive TfSet where
  | null
  | unknown
  | known (elems : List TfString)
  deriving DecidableEq, Repr

/-- Method `IsNull` of `types.String`. -/
def TfString.IsNull : TfString → Bool
  | .null => true
  | _ => false

/-- Method `ValueString`: the known string, or the empty string. -/
def TfString.ValueString : TfString → String
  | .value s => s
  | _ => ""

/-- Method `ValueBool`: the known bool, or false. -/
def TfBool.ValueBool : TfBool → Bool
  | .value b => b
  | _ => false

/-- Method `IsNull` of `types.Int32`. -/
def TfInt32.IsNull : TfInt32 → Bool
  | .null => true
  | _ => false

/-- Method `ValueInt32`: the known number, or 0. -/
def TfInt32.ValueInt32 : TfInt32 → Int
  | .value v => v.val
  | _ => 0

/-- Framework `types.StringValue`. -/
def StringValue (s : String) : TfString := TfString.value s

/-- Framework `types.BoolValue`. -/
def BoolValue (b : Bool) : TfBool := TfBool.value b

/-- Framework `types.Int32Value`. -/
def Int32Value (v : GoInt32) : TfInt32 := TfInt32.value v

/-- Method `Elements` of `types.Set`: the stored elements, none for a null or
unknown set. -/
def TfSet.Elements : TfSet → List TfString
  | .known elems => elems
  | _ => []

/-- The Go strings of a list of set elements, when every element is a known
string. -/
def knownStrings : List TfString → Option (List String)
  | [] => some []
  | TfString.value s :: rest => (knownStrings rest).map (s :: ·)
  | _ :: _ => none

/-- Call `set.ElementsAs(ctx, &items, false)` on a fresh `var items []string`,
diagnostics dropped as in the source: the elements as Go strings when the set
is known and every element is a known string; otherwise the target is left
nil. -/
def TfSet.ElementsAs : TfSet → Option (List String)
  | .known elems => knownStrings elems
  | _ => none

/-- Call `types.SetValueFrom(ctx, types.StringType, elements)`, diagnostics
dropped as in the source: a nil slice gives the null set, a slice of pairwise
distinct strings the known set of those strings, and a slice with a repeated
string fails the framework's set validation, which returns the unknown set. -/
def SetValueFrom (elements : Option (List String)) : TfSet :=
  match elements with
  | none => TfSet.null
  | some l => if l.Nodup then TfSet.known (l.map StringValue) else TfSet.unknown

/-! ## Local model (package firewall) -/

/-- Local `PortItemModel`. -/
structure PortItemModel where
  Type_ : TfString
  Value : TfInt32
  Start : TfInt32
  Stop : TfInt32
  deriving DecidableEq, Repr

/-- Local `PortFilterModel`. -/
structure PortFilterModel where
  Type_ : TfString
  MatchOpposite : TfBool
  Items : List PortItemModel
  deriving DecidableEq, Repr

/-- Local `IPAddressFilterModel`. -/
structure IPAddressFilterModel where
  Type_ : TfString
  MatchOpposite : TfBool
  Items : TfSet
  deriving DecidableEq, Repr

/-- Local `MACAddressFilterModel`. -/
structure MACAddressFilterModel where
  Type_ : TfString
  MatchOpposite : TfBool
  Items : TfSet
  deriving DecidableEq, Repr

/-- Local `NetworkFilterModel`. -/
structure NetworkFilterModel where
  Type_ : TfString
  MatchOpposite : TfBool
  Items : TfSet
  deriving DecidableEq, Repr

/-- Local `DomainFilterModel`. -/
structure DomainFilterModel where
  Items : TfSet
  deriving DecidableEq, Repr

/-- Local `TrafficFilterModel`; a nil sub-filter pointer is `none`. -/
structure TrafficFilterModel where
  Type_ : TfString
  MACAddress : TfString
  PortFilter : Option PortFilterModel
  IPAddressFilter : Option IPAddressFilterModel
  MACAddressFilter : Option MACAddressFilterModel
  NetworkFilter : Option NetworkFilterModel
  DomainFilter : Option DomainFilterModel
  deriving DecidableEq, Repr

/-! ## Wire model (package unifi) -/

/-- Wire `unifi.PortItem`; the numeric fields are Go `int`. -/
structure PortItem where
  Type_ : String
  Value : Int
  Start : Int
  Stop : Int
  deriving DecidableEq, Repr

/-- Wire `unifi.PortFilter`. The mappers only range over `Items` and grow it
with `append`, so the nil and the empty slice are both `[]`. -/
structure PortFilter where
  Type_ : String
  MatchOpposite : Bool
  Items : List PortItem
  deriving DecidableEq, Repr

/-- Wire `unifi.IPAddressItem`. -/
structure IPAddressItem where
  Type_ : String
  Value : String
  deriving DecidableEq, Repr

/-- Wire `unifi.IPAddressFilter`; `Items` as in `PortFilter`. -/
structure IPAddressFilter where
  Type_ : String
  MatchOpposite : Bool
  Items : List IPAddressItem
  deriving DecidableEq, Repr

/-- Wire `unifi.NetworkFilter`. -/
structure NetworkFilter where
  MatchOpposite : Bool
  NetworkIDs : Option (List String)
  deriving DecidableEq, Repr

/-- Wire `unifi.DomainFilter`. -/
structure DomainFilter where
  Type_ : String
  Domains : Option (List String)
  deriving DecidableEq, Repr

/-- Wire `unifi.TrafficFilter`; `MACAddressFilter` is an `interface{}`. -/
structure TrafficFilter where
  Type_ : String
  MACAddressFilter : GoValue
  PortFilter : Option PortFilter
  IPAddressFilter : Option IPAddressFilter
  NetworkFilter : Option NetworkFilter
  DomainFilter : Option DomainFilter

/-! ## Package sort -/

/-- Inner loop of Go's `insertionSortLessFunc`: the element `x` is swapped
leftwards past every predecessor it is less than. The list is the part of the
slice before `x`, nearest predecessor first. -/
def insertLeft {α : Type} (less : α → α → Bool) (x : α) : List α → List α
  | [] => [x]
  | y :: rest => if less x y then y :: insertLeft less x rest else x :: y :: rest

/-- Go's `insertionSortLessFunc` over a whole slice: the elements are taken
from left to right and each is moved into the already sorted part before it. -/
def insertionSortLessFunc {α : Type} (less : α → α → Bool) (data : List α) : List α :=
  (data.foldl (fun before x => insertLeft less x before) []).reverse

/-- Go `sort.Slice(items, less)`. The Go implementation runs exactly
`insertionSortLessFunc` on slices of at most 12 elements; on longer slices it
runs a pattern-defeating quicksort, which also returns a permutation ordered
by `less` but may leave elements that `less` does not separate in another
relative order. -/
def sortSlice {α : Type} (less : α → α → Bool) (items : List α) : List α :=
  insertionSortLessFunc less items

/-! ## mapper_traffic.go -/

/-- Body of the port-item loop of `mapTrafficFilterToAPI`. -/
def portItemToAPI (item : PortItemModel) : PortItem :=
  let pi : PortItem := { Type_ := item.Type_.ValueString, Value := 0, Start := 0, Stop := 0 }
  let pi := if !item.Value.IsNull then { pi with Value := item.Value.ValueInt32 } else pi
  let pi := if !item.Start.IsNull then { pi with Start := item.Start.ValueInt32 } else pi
  let pi := if !item.Stop.IsNull then { pi with Stop := item.Stop.ValueInt32 } else pi
  pi

/-- Block `if tf.PortFilter != nil` of `mapTrafficFilterToAPI`: the wire
port filter built from the local one. -/
def portFilterToAPI (pf : PortFilterModel) : PortFilter :=
  { Type_ := pf.Type_.ValueString, MatchOpposite := pf.MatchOpposite.ValueBool,
    Items := pf.Items.map portItemToAPI }

/-- Body of the IP-item loop of `mapTrafficFilterToAPI`. -/
def ipItemToAPI (item : String) : IPAddressItem :=
  let itemType := if stringsContains item "/" then "SUBNET" else "IP_ADDRESS"
  { Type_ := itemType, Value := item }

/-- Block `if tf.IPAddressFilter != nil` of `mapTrafficFilterToAPI`. -/
def ipFilterToAPI (f : IPAddressFilterModel) : IPAddressFilter :=
  let items := f.Items.ElementsAs
  { Type_ := f.Type_.ValueString, MatchOpposite := f.MatchOpposite.ValueBool,
    Items := (items.getD []).map ipItemToAPI }

/-- Block `if tf.MACAddressFilter != nil` of `mapTrafficFilterToAPI`. -/
def macFilterToAPI (f : MACAddressFilterModel) : MACAddressFilter :=
  let items := f.Items.ElementsAs
  { MACAddresses := items }

/-- Block `if tf.NetworkFilter != nil` of `mapTrafficFilterToAPI`. -/
def networkFilterToAPI (f : NetworkFilterModel) : NetworkFilter :=
  let items := f.Items.ElementsAs
  { MatchOpposite := f.MatchOpposite.ValueBool, NetworkIDs := items }

/-- Block `if tf.DomainFilter != nil` of `mapTrafficFilterToAPI`. -/
def domainFilterToAPI (f : DomainFilterModel) : DomainFilter :=
  let items := f.Items.ElementsAs
  { Type_ := "DOMAINS", Domains := items }

/-- Source `mapTrafficFilterToAPI`; `none` is the nil pointer. -/
def mapTrafficFilterToAPI (tf : Option TrafficFilterModel) : Option TrafficFilter :=
  match tf with
  | none => none
  | some tf =>
    let apiTF : TrafficFilter :=
      { Type_ := tf.Type_.ValueString, MACAddressFilter := GoValue.nil, PortFilter := none,
        IPAddressFilter := none, NetworkFilter := none, DomainFilter := none }
    let apiTF :=
      if !tf.MACAddress.IsNull then
        { apiTF with MACAddressFilter := GoValue.str tf.MACAddress.ValueString }
      else apiTF
    let apiTF :=
      match tf.PortFilter with
      | some pf => { apiTF with PortFilter := some (portFilterToAPI pf) }
      | none => apiTF
    let apiTF :=
      match tf.IPAddressFilter with
      | some f => { apiTF with IPAddressFilter := some (ipFilterToAPI f) }
      | none => apiTF
    let apiTF :=
      match tf.MACAddressFilter with
      | some f =>
        { apiTF with MACAddressFilter := GoValue.macAddressFilter (some (macFilterToAPI f)) }
      | none => apiTF
    let apiTF :=
      match tf.NetworkFilter with
      | some f => { apiTF with NetworkFilter := some (networkFilterToAPI f) }
      | none => apiTF
    let apiTF :=
      match tf.DomainFilter with
      | some f => { apiTF with DomainFilter := some (domainFilterToAPI f) }
      | none => apiTF
    some apiTF

/-- A `[]string` grown by `append` from a nil `var`: still nil when nothing
was appended. -/
def appended (l : List String) : Option (List String) :=
  match l with
  | [] => none
  | _ => some l

/-- Loop `ms = append(ms, m.(string))` over a `[]interface{}`: the unchecked
type assertion panics on the first element that is not a string. -/
def assertStrings : List GoValue → Except String (List String)
  | [] => Except.ok []
  | GoValue.str s :: rest =>
    match assertStrings rest with
    | Except.ok ss => Except.ok (s :: ss)
    | Except.error e => Except.error e
  | _ :: _ => Except.error "panic: interface conversion: interface \x7b\x7d is not string"

/-- The `MACAddressFilterModel` that `mapTrafficFilterFromAPI` builds around
a list of MAC addresses. -/
def macFilterModel (macAddresses : Option (List String)) : MACAddressFilterModel :=
  { Type_ := StringValue "MAC_ADDRESSES", MatchOpposite := BoolValue false,
    Items := SetValueFrom macAddresses }

/-- Body of the port-item loop of `mapTrafficFilterFromAPI`. -/
def portItemFromAPI (item : PortItem) : PortItemModel :=
  let pi : PortItemModel :=
    { Type_ := StringValue item.Type_, Value := TfInt32.null, Start := TfInt32.null,
      Stop := TfInt32.null }
  let pi := if item.Value ≠ 0 then { pi with Value := Int32Value (int32 item.Value) } else pi
  let pi := if item.Start ≠ 0 then { pi with Start := Int32Value (int32 item.Start) } else pi
  let pi := if item.Stop ≠ 0 then { pi with Stop := Int32Value (int32 item.Stop) } else pi
  pi

/-- Comparison closure handed to `sort.Slice` in `mapTrafficFilterFromAPI`. -/
def portItemLess (a b : PortItemModel) : Bool :=
  if a.Value.ValueInt32 ≠ b.Value.ValueInt32 then
    decide (a.Value.ValueInt32 < b.Value.ValueInt32)
  else if a.Start.ValueInt32 ≠ b.Start.ValueInt32 then
    decide (a.Start.ValueInt32 < b.Start.ValueInt32)
  else decide (a.Stop.ValueInt32 < b.Stop.ValueInt32)

/-- Block `if apiTF.PortFilter != nil` of `mapTrafficFilterFromAPI`: the items
are mapped one by one, then sorted. -/
def portFilterFromAPI (pf : PortFilter) : PortFilterModel :=
  let items := pf.Items.map portItemFromAPI
  let items := sortSlice portItemLess items
  { Type_ := StringValue pf.Type_, MatchOpposite := BoolValue pf.MatchOpposite,
    Items := items }

/-- Block `if apiTF.IPAddressFilter != nil` of `mapTrafficFilterFromAPI`. -/
def ipFilterFromAPI (f : IPAddressFilter) : IPAddressFilterModel :=
  let ms := appended (f.Items.map fun item => item.Value)
  { Type_ := StringValue f.Type_, MatchOpposite := BoolValue f.MatchOpposite,
    Items := SetValueFrom ms }

/-- Block `if apiTF.NetworkFilter != nil` of `mapTrafficFilterFromAPI`. -/
def networkFilterFromAPI (f : NetworkFilter) : NetworkFilterModel :=
  { Type_ := StringValue "NETWORK", MatchOpposite := BoolValue f.MatchOpposite,
    Items := SetValueFrom f.NetworkIDs }

/-- Block `if apiTF.DomainFilter != nil` of `mapTrafficFilterFromAPI`. -/
def domainFilterFromAPI (f : DomainFilter) : DomainFilterModel :=
  { Items := SetValueFrom f.Domains }

/-- Source `mapTrafficFilterFromAPI`; `none` is the nil pointer and
`Except.error` a run-time panic. -/
def mapTrafficFilterFromAPI (apiTF : Option TrafficFilter) :
    Except String (Option TrafficFilterModel) :=
  match apiTF with
  | none => Except.ok none
  | some apiTF =>
    let tf : TrafficFilterModel :=
      { Type_ := StringValue apiTF.Type_, MACAddress := TfString.null, PortFilter := none,
        IPAddressFilter := none, MACAddressFilter := none, NetworkFilter := none,
        DomainFilter := none }
    let tf :=
      match apiTF.MACAddressFilter with
      | GoValue.str v => { tf with MACAddress := StringValue v }
      | _ => tf
    let macResult : Except String TrafficFilterModel :=
      match apiTF.MACAddressFilter with
      | GoValue.macAddressFilter none =>
        Except.error "panic: invalid memory address or nil pointer dereference"
      | GoValue.macAddressFilter (some macFilter) =>
        Except.ok { tf with MACAddressFilter := some (macFilterModel macFilter.MACAddresses) }
      | GoValue.map listMacs =>
        match GoMap.index listMacs "macAddresses" with
        | GoValue.slice macs =>
          match assertStrings macs with
          | Except.ok ms =>
            Except.ok { tf with MACAddressFilter := some (macFilterModel (appended ms)) }
          | Except.error e => Except.error e
        | _ => Except.ok tf
      | _ => Except.ok tf
    match macResult with
    | Except.error e => Except.error e
    | Except.ok tf =>
      let tf :=
        match apiTF.PortFilter with
        | some pf => { tf with PortFilter := some (portFilterFromAPI pf) }
        | none => tf
      let tf :=
        match apiTF.IPAddressFilter with
        | some f => { tf with IPAddressFilter := some (ipFilterFromAPI f) }
        | none => tf
      let tf :=
        match apiTF.NetworkFilter with
        | some f => { tf with NetworkFilter := some (networkFilterFromAPI f) }
        | none => tf
      let tf :=
        match apiTF.DomainFilter with
        | some f => { tf with DomainFilter := some (domainFilterFromAPI f) }
        | none => tf
      Except.ok (some tf)

/-! ## Notions used to state the properties -/

/-- The sort key of a local port item: the triple (Value, Start, Stop), a
field that is not set counting as 0. -/
def portKey (item : PortItemModel) : Int × Int × Int :=
  (item.Value.ValueInt32, item.Start.ValueInt32, item.Stop.ValueInt32)

/-- Lexicographic order on triples of integers: `a` is at most `b`. -/
def tupleLE (a b : Int × Int × Int) : Prop :=
  a.1 < b.1 ∨ (a.1 = b.1 ∧ (a.2.1 < b.2.1 ∨ (a.2.1 = b.2.1 ∧ a.2.2 ≤ b.2.2)))

instance (a b : Int × Int × Int) : Decidable (tupleLE a b) :=
  inferInstanceAs
    (Decidable (a.1 < b.1 ∨ (a.1 = b.1 ∧ (a.2.1 < b.2.1 ∨ (a.2.1 = b.2.1 ∧ a.2.2 ≤ b.2.2)))))

/-- Whether a Go value is a string. -/
def GoValue.isStr : GoValue → Bool
  | GoValue.str _ => true
  | _ => false

/-- The values of the wire `MACAddressFilter` on which
`mapTrafficFilterFromAPI` panics: the nil `*unifi.MACAddressFilter`, and a
generic map whose `macAddresses` entry is a `[]interface{}` holding an element
that is not a string. -/
def macPanics : GoValue → Bool
  | GoValue.macAddressFilter none => true
  | GoValue.map m =>
    match GoMap.index m "macAddresses" with
    | GoValue.slice macs => macs.any fun x => !x.isStr
    | _ => false
  | _ => false

/-- The string of a Go value that is a string. -/
def GoValue.str? : GoValue → Option String
  | GoValue.str s => some s
  | _ => none

/-- The local scalar `MACAddress` read from the wire value: set exactly when
the wire value is a bare string. -/
def macScalarFromAPI : GoValue → TfString
  | GoValue.str v => StringValue v
  | _ => TfString.null

/-- The local structured `MACAddressFilter` read from a wire value on which
the mapper does not panic. -/
def macStructFromAPI : GoValue → Option MACAddressFilterModel
  | GoValue.macAddressFilter (some f) => some (macFilterModel f.MACAddresses)
  | GoValue.map m =>
    match GoMap.index m "macAddresses" with
    | GoValue.slice macs => some (macFilterModel (appended (macs.filterMap GoValue.str?)))
    | _ => none
  | _ => none

/-- The wire `MACAddressFilter` written for a local model: the structured
filter when present, else the scalar when it is not null, else nil. -/
def macValueToAPI (tf : TrafficFilterModel) : GoValue :=
  match tf.MACAddressFilter with
  | some f => GoValue.macAddressFilter (some (macFilterToAPI f))
  | none => if tf.MACAddress.IsNull then GoValue.nil else GoValue.str tf.MACAddress.ValueString

/-- A set is well formed when the strings it yields are pairwise distinct. -/
def TfSet.Distinct (s : TfSet) : Prop :=
  ∀ l, s.ElementsAs = some l → l.Nodup

/-- Every set held by a local model is well formed. -/
def TrafficFilterModel.SetsDistinct (tf : TrafficFilterModel) : Prop :=
  (∀ f, tf.IPAddressFilter = some f → f.Items.Distinct) ∧
  (∀ f, tf.MACAddressFilter = some f → f.Items.Distinct) ∧
  (∀ f, tf.NetworkFilter = some f → f.Items.Distinct) ∧
  (∀ f, tf.DomainFilter = some f → f.Items.Distinct)

/-- Two optional wire port filters agree up to the order of their items. -/
def samePortsUpToOrder (a b : Option PortFilter) : Prop :=
  match a, b with
  | none, none => True
  | some p, some q =>
    p.Type_ = q.Type_ ∧ p.MatchOpposite = q.MatchOpposite ∧ p.Items.Perm q.Items
  | _, _ => False

/-! ## Sample values -/

/-- A local port item for the single port `v`. -/
def samplePortNumber (v : GoInt32) : PortItemModel :=
  { Type_ := StringValue "PORT_NUMBER", Value := Int32Value v, Start := TfInt32.null,
    Stop := TfInt32.null }

/-- A local model holding one sub-filter of each kind, with the given port
items. -/
def sampleLocal (ports : List PortItemModel) : TrafficFilterModel :=
  { Type_ := StringValue "CUSTOM",
    MACAddress := TfString.null,
    PortFilter := some
      { Type_ := StringValue "PORTS", MatchOpposite := BoolValue false, Items := ports },
    IPAddressFilter := some
      { Type_ := StringValue "IP_ADDRESSES", MatchOpposite := BoolValue false,
        Items := TfSet.known [StringValue "10.0.0.0/24", StringValue "1.2.3.4"] },
    MACAddressFilter := some
      { Type_ := StringValue "MAC_ADDRESSES", MatchOpposite := BoolValue false,
        Items := TfSet.known [StringValue "aa:bb:cc:dd:ee:ff"] },
    NetworkFilter := some
      { Type_ := StringValue "NETWORK", MatchOpposite := BoolValue true,
        Items := TfSet.known [StringValue "net-1"] },
    DomainFilter := some { Items := TfSet.known [StringValue "example.com"] } }

/-- A wire filter holding only a port filter with the given items. -/
def sampleWire (items : List PortItem) : TrafficFilter :=
  { Type_ := "CUSTOM",
    MACAddressFilter := GoValue.nil,
    PortFilter := some { Type_ := "PORTS", MatchOpposite := false, Items := items },
    IPAddressFilter := none,
    NetworkFilter := none,
    DomainFilter := none }

/-- A wire filter whose `MACAddressFilter` was decoded from the JSON object
with a `macAddresses` list holding the number 1. -/
def sampleWireNumericMac : TrafficFilter :=
  { Type_ := "CUSTOM",
    MACAddressFilter :=
      GoValue.map [("macAddresses", GoValue.slice [GoValue.float64 (GoFloat64.finite false 1 0)])],
    PortFilter := none,
    IPAddressFilter := none,
    NetworkFilter := none,
    DomainFilter := none }

/-! ## dns_policy_models.go and dns_policy_resource.go -/

/-- Framework `types.Int64`: null, unknown or a known number. Go `int64` and
Go `int` are both 64 bits wide on the platforms the provider is built for, so
the conversions between them in the handlers change nothing and both are
integers here. -/
inductive TfInt64 where
  | null
  | unknown
  | value (v : Int)
  deriving DecidableEq, Repr

/-- Method `IsNull` of `types.Int64`. -/
def TfInt64.IsNull : TfInt64 → Bool
  | .null => true
  | _ => false

/-- Method `ValueInt64`: the known number, or 0. -/
def TfInt64.ValueInt64 : TfInt64 → Int
  | .value v => v
  | _ => 0

/-- Framework `types.Int64Value`. -/
def Int64Value (v : Int) : TfInt64 := TfInt64.value v

/-- Method `IsUnknown` of `types.String`. -/
def TfString.IsUnknown : TfString → Bool
  | .unknown => true
  | _ => false

/-- Source `DNSPolicyResourceModel`. -/
structure DNSPolicyResourceModel where
  ID : TfString
  SiteID : TfString
  Type_ : TfString
  Domain : TfString
  Enabled : TfBool
  Target : TfString
  IPAddress : TfString
  CNAME : TfString
  Priority : TfInt64
  Weight : TfInt64
  Port : TfInt64
  Text : TfString
  TTL : TfInt64
  deriving DecidableEq, Repr

/-- Wire `unifi.DNSPolicy`, with the fields the handlers read and write. -/
structure DNSPolicy where
  ID : String
  Type_ : String
  Domain : String
  Enabled : Bool
  Target : String
  IPv4Address : String
  CNAME : String
  MXPriority : Int
  SRVPriority : Int
  SRVWeight : Int
  SRVPort : Int
  TXTText : String
  TTL : Int
  deriving DecidableEq, Repr

/-- The transport client `unifi.Client`, reduced to the one field the
handlers touch. -/
structure Client where
  SiteID : String
  deriving DecidableEq, Repr

/-- A framework diagnostic. -/
inductive Diagnostic where
  | error (summary detail : String)
  | warning (summary detail : String)
  deriving DecidableEq, Repr

/-- Method `HasError` of `diag.Diagnostics`. -/
def HasError (diags : List Diagnostic) : Bool :=
  diags.any fun d =>
    match d with
    | Diagnostic.error _ _ => true
    | Diagnostic.warning _ _ => false

/-- What `req.Plan.Get(ctx, &plan)` or `req.State.Get(ctx, &state)` yields:
the decoded model and the diagnostics of the decoding. -/
structure GetResult where
  model : DNSPolicyResourceModel
  diags : List Diagnostic
  deriving DecidableEq, Repr

/-- What a handler leaves in its response: the diagnostics, and the model
handed to `resp.State.Set`, `none` when `Set` was not called. -/
structure Response where
  Diagnostics : List Diagnostic
  State : Option DNSPolicyResourceModel
  deriving DecidableEq, Repr

/-- The API request that `Create` and `Update` prepare from the plan; `id` is
the `ID` the policy literal starts with. -/
def preparePolicy (id : String) (plan : DNSPolicyResourceModel) : DNSPolicy :=
  let policy : DNSPolicy :=
    { ID := id, Type_ := plan.Type_.ValueString, Domain := plan.Domain.ValueString,
      Enabled := plan.Enabled.ValueBool, Target := "", IPv4Address := "", CNAME := "",
      MXPriority := 0, SRVPriority := 0, SRVWeight := 0, SRVPort := 0, TXTText := "", TTL := 0 }
  let policy :=
    if !plan.Target.IsNull then { policy with Target := plan.Target.ValueString } else policy
  let policy :=
    if !plan.IPAddress.IsNull then { policy with IPv4Address := plan.IPAddress.ValueString }
    else policy
  let policy :=
    if !plan.CNAME.IsNull then { policy with CNAME := plan.CNAME.ValueString } else policy
  let policy :=
    if !plan.Priority.IsNull then
      let val := plan.Priority.ValueInt64
      if policy.Type_ = "MX_RECORD" then { policy with MXPriority := val }
      else if policy.Type_ = "SRV_RECORD" then { policy with SRVPriority := val }
      else policy
    else policy
  let policy :=
    if !plan.Weight.IsNull then { policy with SRVWeight := plan.Weight.ValueInt64 } else policy
  let policy :=
    if !plan.Port.IsNull then { policy with SRVPort := plan.Port.ValueInt64 } else policy
  let policy :=
    if !plan.Text.IsNull then { policy with TXTText := plan.Text.ValueString } else policy
  let policy :=
    if !plan.TTL.IsNull then { policy with TTL := plan.TTL.ValueInt64 } else policy
  policy

/-- Block `// Update state` of `Read`: the state after the remote policy has
been copied into it. -/
def updateState (state : DNSPolicyResourceModel) (policy : DNSPolicy) :
    DNSPolicyResourceModel :=
  let state :=
    { state with
      Type_ := StringValue policy.Type_, Domain := StringValue policy.Domain,
      Enabled := BoolValue policy.Enabled }
  let state :=
    if policy.Target ≠ "" then { state with Target := StringValue policy.Target } else state
  let state :=
    if policy.IPv4Address ≠ "" then { state with IPAddress := StringValue policy.IPv4Address }
    else state
  let state :=
    if policy.CNAME ≠ "" then { state with CNAME := StringValue policy.CNAME } else state
  let state :=
    if policy.Type_ = "MX_RECORD" ∧ policy.MXPriority ≠ 0 then
      { state with Priority := Int64Value policy.MXPriority }
    else if policy.Type_ = "SRV_RECORD" ∧ policy.SRVPriority ≠ 0 then
      { state with Priority := Int64Value policy.SRVPriority }
    else state
  let state :=
    if policy.SRVWeight ≠ 0 then { state with Weight := Int64Value policy.SRVWeight } else state
  let state :=
    if policy.SRVPort ≠ 0 then { state with Port := Int64Value policy.SRVPort } else state
  let state :=
    if policy.TXTText ≠ "" then { state with Text := StringValue policy.TXTText } else state
  let state :=
    if policy.TTL ≠ 0 then { state with TTL := Int64Value policy.TTL } else state
  state

namespace DNSPolicyResource

/-- Source `DNSPolicyResource.Create`. The handler is given the client that
`r.client` points to, the result of `req.Plan.Get` and the transport call
`r.client.CreateDNSPolicy`, which returns the created policy or an error and
leaves the client in some state of its own; the handler returns the client as
it is after the deferred restore, with the response. -/
def Create (client : Client) (req : GetResult)
    (CreateDNSPolicy : Client → DNSPolicy → Except String DNSPolicy × Client) :
    Client × Response :=
  let plan := req.model
  let diags := req.diags
  if HasError diags then (client, { Diagnostics := diags, State := none })
  else
    let policy := preparePolicy "" plan
    let originalSiteID := client.SiteID
    let client :=
      if !plan.SiteID.IsNull && !plan.SiteID.IsUnknown then
        { client with SiteID := plan.SiteID.ValueString }
      else client
    let usedSiteID := client.SiteID
    match CreateDNSPolicy client policy with
    | (Except.error err, client) =>
      ({ client with SiteID := originalSiteID },
        { Diagnostics := diags ++ [Diagnostic.error "Error creating DNS policy" err],
          State := none })
    | (Except.ok createdPolicy, client) =>
      let plan :=
        { plan with ID := StringValue createdPolicy.ID, SiteID := StringValue usedSiteID }
      ({ client with SiteID := originalSiteID }, { Diagnostics := diags, State := some plan })

/-- Source `DNSPolicyResource.Read`. -/
def Read (client : Client) (req : GetResult)
    (GetDNSPolicy : Client → String → Except String DNSPolicy × Client) :
    Client × Response :=
  let state := req.model
  let diags := req.diags
  if HasError diags then (client, { Diagnostics := diags, State := none })
  else
    let originalSiteID := client.SiteID
    let client :=
      if !state.SiteID.IsNull then { client with SiteID := state.SiteID.ValueString }
      else client
    match GetDNSPolicy client state.ID.ValueString with
    | (Except.error err, client) =>
      ({ client with SiteID := originalSiteID },
        { Diagnostics := diags ++ [Diagnostic.error "Error reading DNS policy" err],
          State := none })
    | (Except.ok policy, client) =>
      let state := updateState state policy
      ({ client with SiteID := originalSiteID }, { Diagnostics := diags, State := some state })

/-- Source `DNSPolicyResource.Update`. -/
def Update (client : Client) (req : GetResult)
    (UpdateDNSPolicy : Client → String → DNSPolicy → Except String DNSPolicy × Client) :
    Client × Response :=
  let plan := req.model
  let diags := req.diags
  if HasError diags then (client, { Diagnostics := diags, State := none })
  else
    let policy := preparePolicy plan.ID.ValueString plan
    let originalSiteID := client.SiteID
    let client :=
      if !plan.SiteID.IsNull then { client with SiteID := plan.SiteID.ValueString }
      else client
    match UpdateDNSPolicy client plan.ID.ValueString policy with
    | (Except.error err, client) =>
      ({ client with SiteID := originalSiteID },
        { Diagnostics := diags ++ [Diagnostic.error "Error updating DNS policy" err],
          State := none })
    | (Except.ok _, client) =>
      ({ client with SiteID := originalSiteID }, { Diagnostics := diags, State := some plan })

/-- Source `DNSPolicyResource.Delete`; the transport call returns `some err`
on failure. -/
def Delete (client : Client) (req : GetResult)
    (DeleteDNSPolicy : Client → String → Option String × Client) : Client × Response :=
  let state := req.model
  let diags := req.diags
  if HasError diags then (client, { Diagnostics := diags, State := none })
  else
    let originalSiteID := client.SiteID
    let client :=
      if !state.SiteID.IsNull then { client with SiteID := state.SiteID.ValueString }
      else client
    match DeleteDNSPolicy client state.ID.ValueString with
    | (some err, client) =>
      ({ client with SiteID := originalSiteID },
        { Diagnostics := diags ++ [Diagnostic.error "Error deleting DNS policy" err],
          State := none })
    | (none, client) =>
      ({ client with SiteID := originalSiteID }, { Diagnostics := diags, State := none })

end DNSPolicyResource

/-! ## Further notions used to state the properties -/

/-- A local numeric field is written as the wire number `n`: the number it
holds when it is set, and 0 when it is null. -/
def numberWrittenAs (l : TfInt32) (n : Int) : Prop :=
  (∀ v, l = Int32Value v → n = v.val) ∧ (l = TfInt32.null → n = 0)

/-- A local port item is written as the wire item `w`. -/
def portItemWrittenAs (l : PortItemModel) (w : PortItem) : Prop :=
  w.Type_ = l.Type_.ValueString ∧ numberWrittenAs l.Value w.Value ∧
  numberWrittenAs l.Start w.Start ∧ numberWrittenAs l.Stop w.Stop

/-- A wire number `n` is read as the local field `l`: null when `n` is 0, and
set to `n` when `n` is not 0 and fits in 32 bits. -/
def numberReadAs (n : Int) (l : TfInt32) : Prop :=
  (n = 0 → l = TfInt32.null) ∧
  (n ≠ 0 → ∀ h : -2147483648 ≤ n ∧ n < 2147483648, l = Int32Value ⟨n, h⟩)

/-- A wire port item is read as the local item `l`. -/
def portItemReadAs (w : PortItem) (l : PortItemModel) : Prop :=
  l.Type_ = StringValue w.Type_ ∧ numberReadAs w.Value l.Value ∧
  numberReadAs w.Start l.Start ∧ numberReadAs w.Stop l.Stop

/-! ## Further sample values -/

/-- A local model holding only the scalar MAC address. -/
def sampleScalarMac : TrafficFilterModel :=
  { Type_ := StringValue "CUSTOM",
    MACAddress := StringValue "aa:bb:cc:dd:ee:ff",
    PortFilter := none,
    IPAddressFilter := none,
    MACAddressFilter := none,
    NetworkFilter := none,
    DomainFilter := none }

/-- A wire filter holding only the given `MACAddressFilter` value. -/
def sampleWireMac (mac : GoValue) : TrafficFilter :=
  { Type_ := "CUSTOM",
    MACAddressFilter := mac,
    PortFilter := none,
    IPAddressFilter := none,
    NetworkFilter := none,
    DomainFilter := none }

/-- A prior state of an A record with every optional field set. -/
def sampleState : DNSPolicyResourceModel :=
  { ID := StringValue "dns-1",
    SiteID := StringValue "site-b",
    Type_ := StringValue "A_RECORD",
    Domain := StringValue "old.example.com",
    Enabled := BoolValue false,
    Target := StringValue "10.0.0.1",
    IPAddress := StringValue "10.0.0.2",
    CNAME := StringValue "alias.example.com",
    Priority := Int64Value 10,
    Weight := Int64Value 20,
    Port := Int64Value 5060,
    Text := StringValue "v=spf1",
    TTL := Int64Value 300 }

/-- A remote MX policy whose optional fields are all empty or 0 except the
MX priority, the address and the TTL. -/
def samplePolicy : DNSPolicy :=
  { ID := "dns-1",
    Type_ := "MX_RECORD",
    Domain := "new.example.com",
    Enabled := true,
    Target := "",
    IPv4Address := "192.0.2.7",
    CNAME := "",
    MXPriority := 5,
    SRVPriority := 0,
    SRVWeight := 0,
    SRVPort := 0,
    TXTText := "",
    TTL := 60 }

/-- A transport call for `Read` that answers with `samplePolicy` and leaves
the client on the site `elsewhere`. -/
def sampleGet (client : Client) (_id : String) : Except String DNSPolicy × Client :=
  (Except.ok samplePolicy, { client with SiteID := "elsewhere" })

/-! ## Lemmas on Go strings -/

theorem stringsToUpper_eq_empty (u : UnicodeTables) (p : String) :
    stringsToUpper u p = "" ↔ p = "" := by
  cases p with
  | mk l =>
    cases l with
    | nil => simp [stringsToUpper]
    | cons a t =>
      constructor
      · intro h
        have := congrArg String.data h
        simp [stringsToUpper] at this
      · intro h
        have := congrArg String.data h
        simp at this

theorem stringsToLower_toUpper (u : UnicodeTables) (p : String)
    (h : ∀ c ∈ p.data, u.ToLower (u.ToUpper c) = u.ToLower c) :
    stringsToLower u (stringsToUpper u p) = stringsToLower u p := by
  simp only [stringsToLower, stringsToUpper, List.map_map]
  congr 1
  exact List.map_congr_left (fun c hc => h c hc)

theorem equalFoldRunes_length (u : UnicodeTables) :
    ∀ s t : List Char, equalFoldRunes u s t = true → s.length = t.length
  | [], [], _ => rfl
  | [], _ :: _, h => by simp [equalFoldRunes] at h
  | _ :: _, [], h => by simp [equalFoldRunes] at h
  | _ :: s, _ :: t, h => by
    simp only [equalFoldRunes, Bool.and_eq_true] at h
    simp [equalFoldRunes_length u s t h.2]

theorem stringsToUpper_length (u : UnicodeTables) (s : String) :
    (stringsToUpper u s).data.length = s.data.length := by
  simp [stringsToUpper]

/-- A string folding to `PROTOCOL` has eight runes, so its upper-case form is
none of the strings of another length. -/
theorem stringsToUpper_ne_of_equalFold (u : UnicodeTables) (ft k : String)
    (h : stringsEqualFold u ft "PROTOCOL" = true) (hk : k.data.length ≠ 8) :
    stringsToUpper u ft ≠ k := by
  intro e
  apply hk
  rw [← e, stringsToUpper_length, equalFoldRunes_length u _ _ h]
  rfl

/-- The dispatch of `mapProtocolToAPI` with the alias step resolved. -/
theorem mapProtocolToAPI_dispatch (u : UnicodeTables) (filterType protocol : String)
    (hp : protocol ≠ "") :
    mapProtocolToAPI u filterType protocol =
      if stringsToUpper u filterType = "PRESET" then
        some [("preset", GoValue.str (stringsToUpper u protocol))]
      else if stringsToUpper u filterType = "PROTOCOL_NUMBER" then
        some [("number", GoValue.str protocol)]
      else some [("name", GoValue.str (stringsToUpper u protocol))] := by
  unfold mapProtocolToAPI normalizeProtocolFilterType
  rw [if_neg hp]
  by_cases h : stringsEqualFold u filterType "PROTOCOL" = true
  · have h1 := stringsToUpper_ne_of_equalFold u filterType "PRESET" h (by decide)
    have h2 := stringsToUpper_ne_of_equalFold u filterType "PROTOCOL_NUMBER" h (by decide)
    simp [h, h1, h2]
  · simp [h]

/-- Reading back a one-key object whose value is a non-empty string. -/
theorem mapProtocolFromAPI_single (u : UnicodeTables) (key v : String)
    (hkey : key ∈ ["name", "preset", "number", "value"]) (hv : v ≠ "") :
    mapProtocolFromAPI u (some [(key, GoValue.str v)]) = stringsToLower u v := by
  simp only [List.mem_cons, List.mem_singleton, List.not_mem_nil, or_false] at hkey
  rcases hkey with rfl | rfl | rfl | rfl <;>
    simp [mapProtocolFromAPI, probeKeys, GoMap.index, List.lookup, hv]

/-- The key loop returns the value of the first key holding a non-empty
string. -/
theorem probeKeys_first (m : GoMap) (key v : String) (after : List String)
    (hv : m.index key = GoValue.str v) (hne : v ≠ "") :
    ∀ before : List String, (∀ k ∈ before, ∀ w, m.index k = GoValue.str w → w = "") →
      probeKeys m (before ++ key :: after) = some v
  | [], _ => by simp [probeKeys, hv, hne]
  | k :: before, h => by
    have ih := probeKeys_first m key v after hv hne before
      (fun k' hk' => h k' (List.mem_cons_of_mem _ hk'))
    have hk := h k (List.mem_cons_self _ _)
    simp only [List.cons_append, probeKeys]
    cases hidx : m.index k with
    | str w => simp [hk w hidx, ih]
    | _ => simp [ih]

/-- The key loop finds nothing when no probed key holds a non-empty string. -/
theorem probeKeys_none (m : GoMap) :
    ∀ keys : List String, (∀ k ∈ keys, ∀ w, m.index k = GoValue.str w → w = "") →
      probeKeys m keys = none
  | [], _ => rfl
  | k :: keys, h => by
    have ih := probeKeys_none m keys (fun k' hk' => h k' (List.mem_cons_of_mem _ hk'))
    have hk := h k (List.mem_cons_self _ _)
    simp only [probeKeys]
    cases hidx : m.index k with
    | str w => simp [hk w hidx, ih]
    | _ => simp [ih]

/-- A finite positive `float64` whose value is the natural number `n` rounds
to `n`. -/
theorem roundHalfEven_of_nat (mant : Nat) (exp : Int) (n : Nat)
    (h : (mant : ℚ) * (2 : ℚ) ^ exp = (n : ℚ)) : roundHalfEven mant exp = n := by
  cases exp with
  | ofNat e =>
    simp only [roundHalfEven]
    have h' : ((mant * 2 ^ e : ℕ) : ℚ) = (n : ℚ) := by
      push_cast
      simpa using h
    exact_mod_cast h'
  | negSucc k =>
    have hd : (0 : ℚ) < (2 : ℚ) ^ (k + 1) := by positivity
    have h' : (mant : ℚ) = (n : ℚ) * (2 : ℚ) ^ (k + 1) := by
      rw [Int.negSucc_eq, zpow_neg] at h
      have h2 : (2 : ℚ) ^ ((k : ℤ) + 1) = (2 : ℚ) ^ (k + 1) := by
        norm_cast
      rw [h2] at h
      field_simp at h
      exact h
    have h'' : mant = n * 2 ^ (k + 1) := by exact_mod_cast h'
    have hpos : 0 < 2 ^ (k + 1) := by positivity
    simp only [roundHalfEven]
    subst h''
    simp [Nat.mul_div_cancel _ hpos, hpos]

/-- In the excerpt of the Go tables every rune below U+0080 has the same
lower-case mapping before and after upper-casing. -/
theorem goTables_ascii (c : Char) (h : c.toNat < 128) :
    goTables.ToLower (goTables.ToUpper c) = goTables.ToLower c := by
  have key : ∀ n : Fin 128, goToLower (goToUpper (Char.ofNat n.val)) = goToLower (Char.ofNat n.val) := by
    decide
  have hc : Char.ofNat c.toNat = c := by
    simp [Char.ofNat_toNat]
  have := key ⟨c.toNat, h⟩
  simpa [hc, goTables] using this

/-! ## Lemmas on the traffic-filter mapper -/

/-- The wire filter written for a present local model, field by field. -/
theorem mapTrafficFilterToAPI_some (tf : TrafficFilterModel) :
    mapTrafficFilterToAPI (some tf) = some
      { Type_ := tf.Type_.ValueString,
        MACAddressFilter := macValueToAPI tf,
        PortFilter := tf.PortFilter.map portFilterToAPI,
        IPAddressFilter := tf.IPAddressFilter.map ipFilterToAPI,
        NetworkFilter := tf.NetworkFilter.map networkFilterToAPI,
        DomainFilter := tf.DomainFilter.map domainFilterToAPI } := by
  rcases tf with ⟨t, mac, _ | pf, _ | ip, _ | mf, _ | nf, _ | df⟩ <;> cases mac <;> rfl

theorem assertStrings_ok :
    ∀ macs : List GoValue, (macs.any fun x => !x.isStr) = false →
      assertStrings macs = Except.ok (macs.filterMap GoValue.str?)
  | [], _ => rfl
  | x :: rest, h => by
    simp only [List.any_cons, Bool.or_eq_false_iff] at h
    have ih := assertStrings_ok rest h.2
    cases x <;> simp [GoValue.isStr] at h
    simp [assertStrings, ih, GoValue.str?]

theorem assertStrings_error :
    ∀ macs : List GoValue, (macs.any fun x => !x.isStr) = true →
      assertStrings macs =
        Except.error "panic: interface conversion: interface \x7b\x7d is not string"
  | [], h => by simp at h
  | x :: rest, h => by
    cases x with
    | str s =>
      have h' : (rest.any fun x => !x.isStr) = true := by simpa [GoValue.isStr] using h
      simp [assertStrings, assertStrings_error rest h']
    | _ => simp [assertStrings]

/-- The local model read from a present wire filter on which the mapper does
not panic, field by field. -/
theorem mapTrafficFilterFromAPI_some (w : TrafficFilter)
    (h : macPanics w.MACAddressFilter = false) :
    mapTrafficFilterFromAPI (some w) = Except.ok (some
      { Type_ := StringValue w.Type_,
        MACAddress := macScalarFromAPI w.MACAddressFilter,
        PortFilter := w.PortFilter.map portFilterFromAPI,
        IPAddressFilter := w.IPAddressFilter.map ipFilterFromAPI,
        MACAddressFilter := macStructFromAPI w.MACAddressFilter,
        NetworkFilter := w.NetworkFilter.map networkFilterFromAPI,
        DomainFilter := w.DomainFilter.map domainFilterFromAPI }) := by
  rcases w with ⟨t, mac, _ | pf, _ | ip, _ | nf, _ | df⟩ <;>
    cases mac with
    | map m =>
      simp only [macPanics] at h
      simp only [mapTrafficFilterFromAPI, macStructFromAPI, macScalarFromAPI]
      cases hidx : GoMap.index m "macAddresses" with
      | slice macs =>
        rw [hidx] at h
        simp [assertStrings_ok macs h]
      | _ => rfl
    | macAddressFilter p =>
      cases p with
      | none => simp [macPanics] at h
      | some f => rfl
    | _ => rfl

/-- The mapper panics on exactly the wire values singled out by `macPanics`. -/
theorem mapTrafficFilterFromAPI_panics (w : TrafficFilter)
    (h : macPanics w.MACAddressFilter = true) :
    ∃ e, mapTrafficFilterFromAPI (some w) = Except.error e := by
  rcases w with ⟨t, mac, pf, ip, nf, df⟩
  cases mac with
  | map m =>
    simp only [macPanics] at h
    simp only [mapTrafficFilterFromAPI]
    cases hidx : GoMap.index m "macAddresses" with
    | slice macs =>
      rw [hidx] at h
      exact ⟨"panic: interface conversion: interface \x7b\x7d is not string",
        by simp [assertStrings_error macs h]⟩
    | _ => rw [hidx] at h; simp at h
  | macAddressFilter p =>
    cases p with
    | none => exact ⟨_, rfl⟩
    | some f => simp [macPanics] at h
  | _ => simp [macPanics] at h

/-! ## Lemmas on sorting -/

theorem insertLeft_perm {α : Type} (less : α → α → Bool) (x : α) :
    ∀ l : List α, (insertLeft less x l).Perm (x :: l)
  | [] => List.Perm.refl _
  | y :: rest => by
    simp only [insertLeft]
    split
    · exact ((insertLeft_perm less x rest).cons y).trans (List.Perm.swap x y rest)
    · exact List.Perm.refl _

theorem foldl_insertLeft_perm {α : Type} (less : α → α → Bool) :
    ∀ l before : List α,
      (l.foldl (fun before x => insertLeft less x before) before).Perm (l ++ before)
  | [], _ => List.Perm.refl _
  | x :: l, before => by
    simp only [List.foldl_cons, List.cons_append]
    refine (foldl_insertLeft_perm less l (insertLeft less x before)).trans ?_
    refine ((insertLeft_perm less x before).append_left l).trans ?_
    exact List.perm_middle

/-- Sorting returns a permutation of its input. -/
theorem sortSlice_perm {α : Type} (less : α → α → Bool) (l : List α) :
    (sortSlice less l).Perm l := by
  unfold sortSlice insertionSortLessFunc
  refine (List.reverse_perm _).trans ?_
  simpa using foldl_insertLeft_perm less l []

theorem insertLeft_pairwise {α : Type} (less : α → α → Bool)
    (hasym : ∀ a b, less a b = true → less b a = false)
    (hnt : ∀ a b c, less a b = false → less b c = false → less a c = false) (x : α) :
    ∀ l : List α, l.Pairwise (fun a b => less a b = false) →
      (insertLeft less x l).Pairwise (fun a b => less a b = false)
  | [], _ => List.pairwise_singleton _ _
  | y :: rest, h => by
    simp only [insertLeft]
    rw [List.pairwise_cons] at h
    split
    · rename_i hxy
      rw [List.pairwise_cons]
      refine ⟨fun b hb => ?_, insertLeft_pairwise less hasym hnt x rest h.2⟩
      rcases List.mem_cons.1 ((insertLeft_perm less x rest).mem_iff.1 hb) with rfl | hb
      · exact hasym _ _ hxy
      · exact h.1 b hb
    · rename_i hxy
      have hxy' : less x y = false := by simpa using hxy
      rw [List.pairwise_cons]
      refine ⟨fun b hb => ?_, List.pairwise_cons.2 h⟩
      rcases List.mem_cons.1 hb with rfl | hb
      · exact hxy'
      · exact hnt _ _ _ hxy' (h.1 b hb)

theorem foldl_insertLeft_pairwise {α : Type} (less : α → α → Bool)
    (hasym : ∀ a b, less a b = true → less b a = false)
    (hnt : ∀ a b c, less a b = false → less b c = false → less a c = false) :
    ∀ l before : List α, before.Pairwise (fun a b => less a b = false) →
      (l.foldl (fun before x => insertLeft less x before) before).Pairwise
        (fun a b => less a b = false)
  | [], _, h => h
  | x :: l, before, h =>
    foldl_insertLeft_pairwise less hasym hnt l _ (insertLeft_pairwise less hasym hnt x before h)

/-- Sorting by a strict weak order leaves no later element less than an
earlier one. -/
theorem sortSlice_sorted {α : Type} (less : α → α → Bool)
    (hasym : ∀ a b, less a b = true → less b a = false)
    (hnt : ∀ a b c, less a b = false → less b c = false → less a c = false) (l : List α) :
    (sortSlice less l).Pairwise (fun a b => less b a = false) := by
  unfold sortSlice insertionSortLessFunc
  rw [List.pairwise_reverse]
  exact foldl_insertLeft_pairwise less hasym hnt l [] List.Pairwise.nil

theorem foldl_insertLeft_of_sorted {α : Type} (less : α → α → Bool) :
    ∀ l before : List α, (before.reverse ++ l).Pairwise (fun a b => less b a = false) →
      l.foldl (fun before x => insertLeft less x before) before = l.reverse ++ before
  | [], _, _ => by simp
  | x :: l, before, h => by
    have hins : insertLeft less x before = x :: before := by
      cases before with
      | nil => rfl
      | cons y rest =>
        have hxy : less x y = false := by
          rw [List.pairwise_append] at h
          exact h.2.2 y (by simp) x (by simp)
        simp [insertLeft, hxy]
    simp only [List.foldl_cons, hins]
    rw [foldl_insertLeft_of_sorted less l (x :: before) (by simpa using h)]
    simp

/-- Sorting leaves an already ordered slice as it is. -/
theorem sortSlice_of_sorted {α : Type} (less : α → α → Bool) (l : List α)
    (h : l.Pairwise (fun a b => less b a = false)) : sortSlice less l = l := by
  unfold sortSlice insertionSortLessFunc
  rw [foldl_insertLeft_of_sorted less l [] (by simpa using h)]
  simp

theorem portItemLess_eq_false_iff (a b : PortItemModel) :
    portItemLess b a = false ↔ tupleLE (portKey a) (portKey b) := by
  unfold portItemLess tupleLE portKey
  split_ifs <;> simp <;> omega

theorem portItemLess_asymm (a b : PortItemModel) (h : portItemLess a b = true) :
    portItemLess b a = false := by
  unfold portItemLess at *
  split_ifs at * <;> simp at * <;> omega

theorem portItemLess_negTrans (a b c : PortItemModel) (h1 : portItemLess a b = false)
    (h2 : portItemLess b c = false) : portItemLess a c = false := by
  unfold portItemLess at *
  split_ifs at * <;> simp at * <;> omega

/-- The port items read from the wire are in ascending key order. -/
theorem portFilterFromAPI_sorted (pf : PortFilter) :
    (portFilterFromAPI pf).Items.Pairwise (fun a b => tupleLE (portKey a) (portKey b)) := by
  have h := sortSlice_sorted portItemLess portItemLess_asymm portItemLess_negTrans
    (pf.Items.map portItemFromAPI)
  exact h.imp (fun {a b} hab => (portItemLess_eq_false_iff a b).1 hab)

/-- The port items read from the wire are a rearrangement of the items mapped
one by one. -/
theorem portFilterFromAPI_perm (pf : PortFilter) :
    (portFilterFromAPI pf).Items.Perm (pf.Items.map portItemFromAPI) :=
  sortSlice_perm portItemLess _

/-! ## Lemmas on write-then-read -/

theorem macPanics_macValueToAPI (tf : TrafficFilterModel) :
    macPanics (macValueToAPI tf) = false := by
  unfold macValueToAPI
  cases tf.MACAddressFilter with
  | some f => rfl
  | none => cases tf.MACAddress <;> rfl

theorem knownStrings_map_value (l : List String) :
    knownStrings (l.map TfString.value) = some l := by
  induction l with
  | nil => rfl
  | cons a t ih => simp [knownStrings, ih]

/-- A slice of distinct strings stored into a set comes back unchanged. -/
theorem elementsAs_setValueFrom (o : Option (List String)) (h : ∀ l, o = some l → l.Nodup) :
    (SetValueFrom o).ElementsAs = o := by
  cases o with
  | none => rfl
  | some l =>
    simp only [SetValueFrom, if_pos (h l rfl), TfSet.ElementsAs, StringValue]
    exact knownStrings_map_value l

theorem int32_of_inRange (v : GoInt32) : int32 v.val = v := by
  apply Subtype.ext
  have h := v.property
  simp only [int32]
  omega

/-- A wire port item carries the numbers of the local item, 0 for a field
that is not set. -/
theorem portItemToAPI_eq (a : PortItemModel) :
    portItemToAPI a =
      { Type_ := a.Type_.ValueString, Value := a.Value.ValueInt32,
        Start := a.Start.ValueInt32, Stop := a.Stop.ValueInt32 } := by
  rcases a with ⟨t, v, s, e⟩
  cases v <;> cases s <;> cases e <;> rfl

/-- Reading one numeric field of a wire port item. -/
theorem portItemFromAPI_eq (i : PortItem) :
    portItemFromAPI i =
      { Type_ := StringValue i.Type_,
        Value := if i.Value ≠ 0 then Int32Value (int32 i.Value) else TfInt32.null,
        Start := if i.Start ≠ 0 then Int32Value (int32 i.Start) else TfInt32.null,
        Stop := if i.Stop ≠ 0 then Int32Value (int32 i.Stop) else TfInt32.null } := by
  unfold portItemFromAPI
  split_ifs <;> rfl

theorem valueInt32_read_written (x : TfInt32) :
    (if x.ValueInt32 ≠ 0 then Int32Value (int32 x.ValueInt32) else TfInt32.null).ValueInt32 =
      x.ValueInt32 := by
  cases x with
  | value v =>
    simp only [TfInt32.ValueInt32, int32_of_inRange]
    split_ifs with h
    · rfl
    · simp only [ne_eq, not_not] at h
      simp [TfInt32.ValueInt32, h]
  | _ => simp [TfInt32.ValueInt32]

theorem portKey_fromAPI_toAPI (a : PortItemModel) :
    portKey (portItemFromAPI (portItemToAPI a)) = portKey a := by
  rw [portItemToAPI_eq, portItemFromAPI_eq]
  simp only [portKey, valueInt32_read_written]

theorem portItemToAPI_fromAPI_toAPI (a : PortItemModel) :
    portItemToAPI (portItemFromAPI (portItemToAPI a)) = portItemToAPI a := by
  rw [portItemToAPI_eq (portItemFromAPI _), portItemToAPI_eq a, portItemFromAPI_eq]
  simp only [valueInt32_read_written, StringValue, TfString.ValueString]

theorem ipFilter_round_trip (f : IPAddressFilterModel) (h : f.Items.Distinct) :
    ipFilterToAPI (ipFilterFromAPI (ipFilterToAPI f)) = ipFilterToAPI f := by
  have hval : ∀ l : List String, (l.map ipItemToAPI).map (fun item => item.Value) = l := by
    intro l
    induction l with
    | nil => rfl
    | cons a t ih =>
      rw [List.map_cons, List.map_cons, ih]
      rfl
  simp only [ipFilterToAPI, ipFilterFromAPI, hval, StringValue, BoolValue, TfString.ValueString,
    TfBool.ValueBool]
  cases hel : f.Items.ElementsAs with
  | none => rfl
  | some l =>
    cases l with
    | nil => rfl
    | cons a t =>
      have hnd : (a :: t).Nodup := h _ hel
      have := elementsAs_setValueFrom (some (a :: t)) (fun l hl => by cases hl; exact hnd)
      simp [appended, this]

theorem macFilter_round_trip (f : MACAddressFilterModel) (h : f.Items.Distinct) :
    macFilterToAPI (macFilterModel (macFilterToAPI f).MACAddresses) = macFilterToAPI f := by
  simp only [macFilterToAPI, macFilterModel]
  rw [elementsAs_setValueFrom _ h]

theorem networkFilter_round_trip (f : NetworkFilterModel) (h : f.Items.Distinct) :
    networkFilterToAPI (networkFilterFromAPI (networkFilterToAPI f)) = networkFilterToAPI f := by
  simp only [networkFilterToAPI, networkFilterFromAPI, BoolValue, TfBool.ValueBool]
  rw [elementsAs_setValueFrom _ h]

theorem domainFilter_round_trip (f : DomainFilterModel) (h : f.Items.Distinct) :
    domainFilterToAPI (domainFilterFromAPI (domainFilterToAPI f)) = domainFilterToAPI f := by
  simp only [domainFilterToAPI, domainFilterFromAPI]
  rw [elementsAs_setValueFrom _ h]

/-- Writing, reading and writing again a port filter changes at most the
order of its items. -/
theorem portFilter_round_trip_perm (pf : PortFilterModel) :
    (portFilterToAPI (portFilterFromAPI (portFilterToAPI pf))).Type_ =
        (portFilterToAPI pf).Type_ ∧
    (portFilterToAPI (portFilterFromAPI (portFilterToAPI pf))).MatchOpposite =
        (portFilterToAPI pf).MatchOpposite ∧
    (portFilterToAPI (portFilterFromAPI (portFilterToAPI pf))).Items.Perm
        (portFilterToAPI pf).Items := by
  refine ⟨rfl, rfl, ?_⟩
  have h1 := (portFilterFromAPI_perm (portFilterToAPI pf)).map portItemToAPI
  have h2 : ((portFilterToAPI pf).Items.map portItemFromAPI).map portItemToAPI =
      (portFilterToAPI pf).Items := by
    simp only [portFilterToAPI, List.map_map]
    apply List.map_congr_left
    intro a _
    exact portItemToAPI_fromAPI_toAPI a
  rw [h2] at h1
  exact h1

/-- Writing, reading and writing again a port filter whose items are in
ascending key order changes nothing. -/
theorem portFilter_round_trip (pf : PortFilterModel)
    (h : pf.Items.Pairwise (fun a b => tupleLE (portKey a) (portKey b))) :
    portFilterToAPI (portFilterFromAPI (portFilterToAPI pf)) = portFilterToAPI pf := by
  have hs : ((pf.Items.map portItemToAPI).map portItemFromAPI).Pairwise
      (fun a b => portItemLess b a = false) := by
    rw [List.map_map, List.pairwise_map]
    refine h.imp ?_
    intro a b hab
    rw [portItemLess_eq_false_iff]
    simp only [Function.comp, portKey_fromAPI_toAPI]
    exact hab
  have hitems : ((pf.Items.map portItemToAPI).map portItemFromAPI).map portItemToAPI =
      pf.Items.map portItemToAPI := by
    rw [List.map_map, List.map_map]
    apply List.map_congr_left
    intro a _
    exact portItemToAPI_fromAPI_toAPI a
  simp only [portFilterToAPI, portFilterFromAPI, sortSlice_of_sorted _ _ hs, StringValue,
    BoolValue, TfString.ValueString, TfBool.ValueBool, hitems]

theorem macValue_round_trip (tf : TrafficFilterModel)
    (h : ∀ f, tf.MACAddressFilter = some f → f.Items.Distinct) (t : TfString)
    (pf : Option PortFilterModel) (ip : Option IPAddressFilterModel)
    (nf : Option NetworkFilterModel) (df : Option DomainFilterModel) :
    macValueToAPI
      { Type_ := t, MACAddress := macScalarFromAPI (macValueToAPI tf), PortFilter := pf,
        IPAddressFilter := ip, MACAddressFilter := macStructFromAPI (macValueToAPI tf),
        NetworkFilter := nf, DomainFilter := df } = macValueToAPI tf := by
  unfold macValueToAPI
  cases hm : tf.MACAddressFilter with
  | some f =>
    simp only [macStructFromAPI]
    rw [macFilter_round_trip f (h f hm)]
  | none =>
    cases tf.MACAddress <;> rfl

/-- A one-rune pattern occurs in a string exactly when the rune is one of the
runes of the string. -/
theorem stringsContains_slash (s : String) : stringsContains s "/" = true ↔ '/' ∈ s.data := by
  simp only [stringsContains, decide_eq_true_eq]
  show ['/'] <:+: s.data ↔ _
  constructor
  · rintro ⟨a, b, h⟩
    rw [← h]
    simp
  · intro h
    obtain ⟨a, b, h⟩ := List.append_of_mem h
    exact ⟨a, b, by simp [h]⟩

theorem tupleLE_antisymm (a b : Int × Int × Int) (h1 : tupleLE a b) (h2 : tupleLE b a) :
    a = b := by
  rcases a with ⟨a1, a2, a3⟩
  rcases b with ⟨b1, b2, b3⟩
  simp only [tupleLE] at h1 h2
  simp only [Prod.mk.injEq]
  omega

/-- Two lists with the same images under a map that is one-to-one between
their elements are equal. -/
theorem eq_of_map_eq_of_inj {α β : Type} (k : α → β) :
    ∀ l1 l2 : List α, l1.map k = l2.map k →
      (∀ a ∈ l1, ∀ b ∈ l2, k a = k b → a = b) → l1 = l2
  | [], [], _, _ => rfl
  | [], _ :: _, h, _ => by simp at h
  | _ :: _, [], h, _ => by simp at h
  | a :: l1, b :: l2, h, hinj => by
    simp only [List.map_cons, List.cons.injEq] at h
    have hab := hinj a (List.mem_cons_self _ _) b (List.mem_cons_self _ _) h.1
    have ht := eq_of_map_eq_of_inj k l1 l2 h.2
      (fun x hx y hy => hinj x (List.mem_cons_of_mem _ hx) y (List.mem_cons_of_mem _ hy))
    rw [hab, ht]

/-- Two rearrangements of the same wire items are read as item sequences with
the same keys, position by position. -/
theorem portFilterFromAPI_keys_of_perm (pf1 pf2 : PortFilter) (h : pf1.Items.Perm pf2.Items) :
    (portFilterFromAPI pf1).Items.map portKey = (portFilterFromAPI pf2).Items.map portKey := by
  have hp : ((portFilterFromAPI pf1).Items.map portKey).Perm
      ((portFilterFromAPI pf2).Items.map portKey) := by
    apply List.Perm.map
    exact (portFilterFromAPI_perm pf1).trans
      ((h.map portItemFromAPI).trans (portFilterFromAPI_perm pf2).symm)
  have hs1 : ((portFilterFromAPI pf1).Items.map portKey).Sorted tupleLE := by
    rw [List.Sorted, List.pairwise_map]
    exact portFilterFromAPI_sorted pf1
  have hs2 : ((portFilterFromAPI pf2).Items.map portKey).Sorted tupleLE := by
    rw [List.Sorted, List.pairwise_map]
    exact portFilterFromAPI_sorted pf2
  haveI : IsAntisymm (Int × Int × Int) tupleLE := ⟨tupleLE_antisymm⟩
  exact List.eq_of_perm_of_sorted hp hs1 hs2

theorem distinct_of_elementsAs (s : TfSet) (l : List String) (h : s.ElementsAs = some l)
    (hn : l.Nodup) : s.Distinct := by
  intro l' hl'
  rw [h] at hl'
  cases hl'
  exact hn

theorem sampleLocal_setsDistinct (ports : List PortItemModel) :
    (sampleLocal ports).SetsDistinct := by
  refine ⟨?_, ?_, ?_, ?_⟩ <;> intro f hf <;> simp only [sampleLocal, Option.some.injEq] at hf <;>
    subst hf
  · exact distinct_of_elementsAs _ ["10.0.0.0/24", "1.2.3.4"] rfl (by decide)
  · exact distinct_of_elementsAs _ ["aa:bb:cc:dd:ee:ff"] rfl (by decide)
  · exact distinct_of_elementsAs _ ["net-1"] rfl (by decide)
  · exact distinct_of_elementsAs _ ["example.com"] rfl (by decide)

/-! ## Lemmas on the MAC filter and on sets read from the wire -/

/-- The elements of a set built from a slice of pairwise distinct strings are
those strings. -/
theorem elements_setValueFrom (o : Option (List String)) (h : (o.getD []).Nodup) :
    (SetValueFrom o).Elements = (o.getD []).map StringValue := by
  cases o with
  | none => rfl
  | some l =>
    have hl : l.Nodup := h
    simp [SetValueFrom, hl, TfSet.Elements]

theorem getD_appended (l : List String) : (appended l).getD [] = l := by
  cases l <;> rfl

theorem portItemWrittenAs_toAPI (item : PortItemModel) :
    portItemWrittenAs item (portItemToAPI item) := by
  rw [portItemToAPI_eq]
  refine ⟨rfl, ⟨?_, ?_⟩, ⟨?_, ?_⟩, ⟨?_, ?_⟩⟩ <;> intro h <;>
    simp_all [Int32Value, TfInt32.ValueInt32]

theorem forall₂_map_right {α β : Type} (R : α → β → Prop) (f : α → β)
    (h : ∀ a, R a (f a)) : ∀ l : List α, List.Forall₂ R l (l.map f)
  | [] => List.Forall₂.nil
  | a :: l => List.Forall₂.cons (h a) (forall₂_map_right R f h l)

theorem numberReadAs_field (n : Int) :
    numberReadAs n (if n ≠ 0 then Int32Value (int32 n) else TfInt32.null) := by
  constructor
  · intro h
    simp [h]
  · intro h hr
    rw [if_pos h]
    congr 1
    exact int32_of_inRange ⟨n, hr⟩

theorem portItemReadAs_fromAPI (item : PortItem) :
    portItemReadAs item (portItemFromAPI item) := by
  rw [portItemFromAPI_eq]
  exact ⟨rfl, numberReadAs_field _, numberReadAs_field _, numberReadAs_field _⟩

/-- A set 0 and a null are written as the same wire item, field by field. -/
theorem portItemToAPI_zero_null (item : PortItemModel) :
    portItemToAPI { item with Value := Int32Value ⟨0, by decide⟩ } =
      portItemToAPI { item with Value := TfInt32.null } ∧
    portItemToAPI { item with Start := Int32Value ⟨0, by decide⟩ } =
      portItemToAPI { item with Start := TfInt32.null } ∧
    portItemToAPI { item with Stop := Int32Value ⟨0, by decide⟩ } =
      portItemToAPI { item with Stop := TfInt32.null } := by
  simp only [portItemToAPI_eq]
  exact ⟨rfl, rfl, rfl⟩

/-! ## Lemmas on the DNS policy handlers -/

/-- The state written by `Read`, field by field. -/
theorem updateState_fields (state : DNSPolicyResourceModel) (policy : DNSPolicy) :
    (updateState state policy).ID = state.ID ∧
    (updateState state policy).SiteID = state.SiteID ∧
    (updateState state policy).Type_ = StringValue policy.Type_ ∧
    (updateState state policy).Domain = StringValue policy.Domain ∧
    (updateState state policy).Enabled = BoolValue policy.Enabled ∧
    (updateState state policy).Target =
      (if policy.Target ≠ "" then StringValue policy.Target else state.Target) ∧
    (updateState state policy).IPAddress =
      (if policy.IPv4Address ≠ "" then StringValue policy.IPv4Address else state.IPAddress) ∧
    (updateState state policy).CNAME =
      (if policy.CNAME ≠ "" then StringValue policy.CNAME else state.CNAME) ∧
    (updateState state policy).Priority =
      (if policy.Type_ = "MX_RECORD" ∧ policy.MXPriority ≠ 0 then Int64Value policy.MXPriority
        else if policy.Type_ = "SRV_RECORD" ∧ policy.SRVPriority ≠ 0 then
          Int64Value policy.SRVPriority
        else state.Priority) ∧
    (updateState state policy).Weight =
      (if policy.SRVWeight ≠ 0 then Int64Value policy.SRVWeight else state.Weight) ∧
    (updateState state policy).Port =
      (if policy.SRVPort ≠ 0 then Int64Value policy.SRVPort else state.Port) ∧
    (updateState state policy).Text =
      (if policy.TXTText ≠ "" then StringValue policy.TXTText else state.Text) ∧
    (updateState state policy).TTL =
      (if policy.TTL ≠ 0 then Int64Value policy.TTL else state.TTL) := by
  simp only [updateState]
  refine ⟨?_, ?_, ?_, ?_, ?_, ?_, ?_, ?_, ?_, ?_, ?_, ?_, ?_⟩ <;>
    simp only [apply_ite DNSPolicyResourceModel.ID, apply_ite DNSPolicyResourceModel.SiteID,
      apply_ite DNSPolicyResourceModel.Type_, apply_ite DNSPolicyResourceModel.Domain,
      apply_ite DNSPolicyResourceModel.Enabled, apply_ite DNSPolicyResourceModel.Target,
      apply_ite DNSPolicyResourceModel.IPAddress, apply_ite DNSPolicyResourceModel.CNAME,
      apply_ite DNSPolicyResourceModel.Priority, apply_ite DNSPolicyResourceModel.Weight,
      apply_ite DNSPolicyResourceModel.Port, apply_ite DNSPolicyResourceModel.Text,
      apply_ite DNSPolicyResourceModel.TTL, ite_self]

/-- With a state carrying the site `site-b`, `Read` calls the transport on a
client switched to that site, and hands back the client on its own site. -/
theorem Read_uses_state_site :
    DNSPolicyResource.Read { SiteID := "default" } { model := sampleState, diags := [] }
      (fun client _ => (Except.error client.SiteID, { client with SiteID := "elsewhere" })) =
      ({ SiteID := "default" },
        { Diagnostics := [Diagnostic.error "Error reading DNS policy" "site-b"],
          State := none }) := by
  rfl

/-! ## Properties -/

/-- C1, counterexample: a local model with one sub-filter of each kind whose
port items are listed as 443, 80. It is written with the items 443, 80; read
back, the items are sorted to 80, 443, and written again in that order. -/
theorem idempotent_apply_unsorted_ports :
    mapTrafficFilterFromAPI (mapTrafficFilterToAPI (some (sampleLocal
        [samplePortNumber ⟨443, by decide⟩, samplePortNumber ⟨80, by decide⟩]))) =
      Except.ok (some (sampleLocal
        [samplePortNumber ⟨80, by decide⟩, samplePortNumber ⟨443, by decide⟩])) ∧
    mapTrafficFilterToAPI (some (sampleLocal
        [samplePortNumber ⟨80, by decide⟩, samplePortNumber ⟨443, by decide⟩])) ≠
      mapTrafficFilterToAPI (some (sampleLocal
        [samplePortNumber ⟨443, by decide⟩, samplePortNumber ⟨80, by decide⟩])) := by
  refine ⟨rfl, fun h => ?_⟩
  have h' := congrArg (Option.map TrafficFilter.PortFilter) h
  revert h'
  decide

/-- C1, amended: for every local model whose sets are well formed (so also
for one holding a sub-filter of each kind), writing, reading back and writing
again yields a wire filter equal to the first one in every field except for
the order of the port items, and equal to it altogether when the local port
items are listed in ascending order of (Value, Start, Stop). -/
theorem idempotent_apply (tf : TrafficFilterModel) (hsets : tf.SetsDistinct) :
    ∃ w m w', mapTrafficFilterToAPI (some tf) = some w ∧
      mapTrafficFilterFromAPI (some w) = Except.ok (some m) ∧
      mapTrafficFilterToAPI (some m) = some w' ∧
      w'.Type_ = w.Type_ ∧ w'.MACAddressFilter = w.MACAddressFilter ∧
      w'.IPAddressFilter = w.IPAddressFilter ∧ w'.NetworkFilter = w.NetworkFilter ∧
      w'.DomainFilter = w.DomainFilter ∧ samePortsUpToOrder w'.PortFilter w.PortFilter ∧
      ((∀ pf, tf.PortFilter = some pf →
          pf.Items.Pairwise (fun a b => tupleLE (portKey a) (portKey b))) → w' = w) := by
  obtain ⟨hip, hmac, hnet, hdom⟩ := hsets
  refine ⟨_, _, _, mapTrafficFilterToAPI_some tf,
    mapTrafficFilterFromAPI_some _ (macPanics_macValueToAPI tf),
    mapTrafficFilterToAPI_some _, rfl, ?_, ?_, ?_, ?_, ?_, ?_⟩
  · exact macValue_round_trip tf hmac _ _ _ _ _
  · cases h : tf.IPAddressFilter with
    | none => rfl
    | some f => simp [ipFilter_round_trip f (hip f h)]
  · cases h : tf.NetworkFilter with
    | none => rfl
    | some f => simp [networkFilter_round_trip f (hnet f h)]
  · cases h : tf.DomainFilter with
    | none => rfl
    | some f => simp [domainFilter_round_trip f (hdom f h)]
  · cases h : tf.PortFilter with
    | none => simp [samePortsUpToOrder]
    | some pf => simpa [samePortsUpToOrder] using portFilter_round_trip_perm pf
  · intro hsorted
    have e1 := macValue_round_trip tf hmac (StringValue tf.Type_.ValueString)
      ((tf.PortFilter.map portFilterToAPI).map portFilterFromAPI)
      ((tf.IPAddressFilter.map ipFilterToAPI).map ipFilterFromAPI)
      ((tf.NetworkFilter.map networkFilterToAPI).map networkFilterFromAPI)
      ((tf.DomainFilter.map domainFilterToAPI).map domainFilterFromAPI)
    have e2 : ((tf.PortFilter.map portFilterToAPI).map portFilterFromAPI).map portFilterToAPI =
        tf.PortFilter.map portFilterToAPI := by
      cases h : tf.PortFilter with
      | none => rfl
      | some pf => simp [portFilter_round_trip pf (hsorted pf h)]
    have e3 : ((tf.IPAddressFilter.map ipFilterToAPI).map ipFilterFromAPI).map ipFilterToAPI =
        tf.IPAddressFilter.map ipFilterToAPI := by
      cases h : tf.IPAddressFilter with
      | none => rfl
      | some f => simp [ipFilter_round_trip f (hip f h)]
    have e4 : ((tf.NetworkFilter.map networkFilterToAPI).map networkFilterFromAPI).map
        networkFilterToAPI = tf.NetworkFilter.map networkFilterToAPI := by
      cases h : tf.NetworkFilter with
      | none => rfl
      | some f => simp [networkFilter_round_trip f (hnet f h)]
    have e5 : ((tf.DomainFilter.map domainFilterToAPI).map domainFilterFromAPI).map
        domainFilterToAPI = tf.DomainFilter.map domainFilterToAPI := by
      cases h : tf.DomainFilter with
      | none => rfl
      | some f => simp [domainFilter_round_trip f (hdom f h)]
    simp only [e2, e3, e4, e5]
    rw [e1]
    rfl

/-- C1, witness: the sample model with the port items 80, 443 in ascending
order is written the same way before and after a read. -/
theorem idempotent_apply_witness :
    (sampleLocal [samplePortNumber ⟨80, by decide⟩, samplePortNumber ⟨443, by decide⟩]).SetsDistinct ∧
    ∃ m, mapTrafficFilterFromAPI (mapTrafficFilterToAPI (some (sampleLocal
        [samplePortNumber ⟨80, by decide⟩, samplePortNumber ⟨443, by decide⟩]))) =
          Except.ok (some m) ∧
      mapTrafficFilterToAPI (some m) = mapTrafficFilterToAPI (some (sampleLocal
        [samplePortNumber ⟨80, by decide⟩, samplePortNumber ⟨443, by decide⟩])) := by
  refine ⟨sampleLocal_setsDistinct _, ?_⟩
  obtain ⟨w, m, w', h1, h2, h3, _, _, _, _, _, _, h⟩ :=
    idempotent_apply (sampleLocal
      [samplePortNumber ⟨80, by decide⟩, samplePortNumber ⟨443, by decide⟩])
      (sampleLocal_setsDistinct _)
  refine ⟨m, ?_, ?_⟩
  · rw [h1, h2]
  · rw [h3, h1, h ?_]
    intro pf hpf
    simp only [sampleLocal, Option.some.injEq] at hpf
    subst hpf
    decide

/-- C2, counterexample: for the filter type PRESET and the one-rune protocol
U+017F (long s) the wire object holds the upper-case letter `S`, which reads
back as `s`, while the lower-cased protocol is still U+017F. -/
theorem protocol_round_trip_long_s :
    "\u017f" ≠ "" ∧
    mapProtocolToAPI goTables "PRESET" "\u017f" = some [("preset", GoValue.str "S")] ∧
    mapProtocolFromAPI goTables (mapProtocolToAPI goTables "PRESET" "\u017f") = "s" ∧
    stringsToLower goTables "\u017f" = "\u017f" ∧
    mapProtocolFromAPI goTables (mapProtocolToAPI goTables "PRESET" "\u017f") ≠
      stringsToLower goTables "\u017f" := by
  refine ⟨by decide, rfl, by decide, by decide, by decide⟩

/-- C2, amended: for every filter type (PRESET, PROTOCOL_NUMBER,
NAMED_PROTOCOL and PROTOCOL among them) and every non-empty protocol string,
reading back the written wire object yields the lower-cased protocol, provided
the filter type is PROTOCOL_NUMBER ignoring case or every rune of the protocol
has the same lower-case mapping before and after upper-casing. -/
theorem protocol_round_trip (u : UnicodeTables) (filterType protocol : String)
    (hp : protocol ≠ "")
    (h : stringsToUpper u filterType = "PROTOCOL_NUMBER" ∨
      ∀ c ∈ protocol.data, u.ToLower (u.ToUpper c) = u.ToLower c) :
    mapProtocolFromAPI u (mapProtocolToAPI u filterType protocol) =
      stringsToLower u protocol := by
  have hup : stringsToUpper u protocol ≠ "" := fun e => hp ((stringsToUpper_eq_empty u _).1 e)
  rw [mapProtocolToAPI_dispatch u filterType protocol hp]
  by_cases h1 : stringsToUpper u filterType = "PRESET"
  · have h2 : stringsToUpper u filterType ≠ "PROTOCOL_NUMBER" := by rw [h1]; decide
    rw [if_pos h1, mapProtocolFromAPI_single u _ _ (by simp) hup]
    exact stringsToLower_toUpper u protocol (h.resolve_left h2)
  · rw [if_neg h1]
    by_cases h2 : stringsToUpper u filterType = "PROTOCOL_NUMBER"
    · rw [if_pos h2, mapProtocolFromAPI_single u _ _ (by simp) hp]
    · rw [if_neg h2, mapProtocolFromAPI_single u _ _ (by simp) hup]
      exact stringsToLower_toUpper u protocol (h.resolve_left h2)

/-- C2, witness: the named protocol `Tcp` written under the alias PROTOCOL
reads back as `tcp`. -/
theorem protocol_round_trip_witness :
    "Tcp" ≠ "" ∧
    (∀ c ∈ "Tcp".data, goTables.ToLower (goTables.ToUpper c) = goTables.ToLower c) ∧
    mapProtocolFromAPI goTables (mapProtocolToAPI goTables "PROTOCOL" "Tcp") =
      stringsToLower goTables "Tcp" :=
  ⟨by decide, by decide,
    protocol_round_trip goTables "PROTOCOL" "Tcp" (by decide) (Or.inr (by decide))⟩

/-- C3, counterexample: two wire filters hold the same two port items in
opposite orders; the items agree on (Value, Start, Stop) and differ in Type.
Each is read with its own order kept, so the two local item sequences differ. -/
theorem port_items_tie_keeps_wire_order :
    List.Perm
      [({ Type_ := "PORT_NUMBER", Value := 80, Start := 0, Stop := 0 } : PortItem),
        { Type_ := "PORT_NUMBER_RANGE", Value := 80, Start := 0, Stop := 0 }]
      [{ Type_ := "PORT_NUMBER_RANGE", Value := 80, Start := 0, Stop := 0 },
        { Type_ := "PORT_NUMBER", Value := 80, Start := 0, Stop := 0 }] ∧
    mapTrafficFilterFromAPI (some (sampleWire
      [{ Type_ := "PORT_NUMBER", Value := 80, Start := 0, Stop := 0 },
        { Type_ := "PORT_NUMBER_RANGE", Value := 80, Start := 0, Stop := 0 }])) =
      Except.ok (some
        { Type_ := StringValue "CUSTOM", MACAddress := TfString.null,
          PortFilter := some
            { Type_ := StringValue "PORTS", MatchOpposite := BoolValue false,
              Items :=
                [{ Type_ := StringValue "PORT_NUMBER", Value := Int32Value ⟨80, by decide⟩,
                   Start := TfInt32.null, Stop := TfInt32.null },
                 { Type_ := StringValue "PORT_NUMBER_RANGE", Value := Int32Value ⟨80, by decide⟩,
                   Start := TfInt32.null, Stop := TfInt32.null }] },
          IPAddressFilter := none, MACAddressFilter := none, NetworkFilter := none,
          DomainFilter := none }) ∧
    mapTrafficFilterFromAPI (some (sampleWire
      [{ Type_ := "PORT_NUMBER_RANGE", Value := 80, Start := 0, Stop := 0 },
        { Type_ := "PORT_NUMBER", Value := 80, Start := 0, Stop := 0 }])) =
      Except.ok (some
        { Type_ := StringValue "CUSTOM", MACAddress := TfString.null,
          PortFilter := some
            { Type_ := StringValue "PORTS", MatchOpposite := BoolValue false,
              Items :=
                [{ Type_ := StringValue "PORT_NUMBER_RANGE", Value := Int32Value ⟨80, by decide⟩,
                   Start := TfInt32.null, Stop := TfInt32.null },
                 { Type_ := StringValue "PORT_NUMBER", Value := Int32Value ⟨80, by decide⟩,
                   Start := TfInt32.null, Stop := TfInt32.null }] },
          IPAddressFilter := none, MACAddressFilter := none, NetworkFilter := none,
          DomainFilter := none }) ∧
    ([{ Type_ := StringValue "PORT_NUMBER", Value := Int32Value ⟨80, by decide⟩,
        Start := TfInt32.null, Stop := TfInt32.null },
      { Type_ := StringValue "PORT_NUMBER_RANGE", Value := Int32Value ⟨80, by decide⟩,
        Start := TfInt32.null, Stop := TfInt32.null }] : List PortItemModel) ≠
     [{ Type_ := StringValue "PORT_NUMBER_RANGE", Value := Int32Value ⟨80, by decide⟩,
        Start := TfInt32.null, Stop := TfInt32.null },
      { Type_ := StringValue "PORT_NUMBER", Value := Int32Value ⟨80, by decide⟩,
        Start := TfInt32.null, Stop := TfInt32.null }] := by
  refine ⟨List.Perm.swap _ _ _, rfl, rfl, by decide⟩

/-- C3, amended: two wire filters that differ only in the order of their port
items are read as local models whose port items carry the same
(Value, Start, Stop) triples position by position; the two item sequences are
identical, Type included, whenever wire items that are read with the same
triple are read as the same local item. -/
theorem port_items_order_independent (w : TrafficFilter) (pf : PortFilter)
    (items2 : List PortItem) (hpf : w.PortFilter = some pf) (hperm : pf.Items.Perm items2)
    (hmac : macPanics w.MACAddressFilter = false) :
    ∃ m1 m2 p1 p2,
      mapTrafficFilterFromAPI (some w) = Except.ok (some m1) ∧
      mapTrafficFilterFromAPI (some { w with PortFilter := some { pf with Items := items2 } }) =
        Except.ok (some m2) ∧
      m1.PortFilter = some p1 ∧ m2.PortFilter = some p2 ∧
      p1.Type_ = p2.Type_ ∧ p1.MatchOpposite = p2.MatchOpposite ∧
      p1.Items.map portKey = p2.Items.map portKey ∧
      ((∀ a ∈ pf.Items, ∀ b ∈ pf.Items,
          portKey (portItemFromAPI a) = portKey (portItemFromAPI b) →
            portItemFromAPI a = portItemFromAPI b) → p1.Items = p2.Items) := by
  have hkeys := portFilterFromAPI_keys_of_perm pf { pf with Items := items2 } hperm
  refine ⟨_, _, portFilterFromAPI pf, portFilterFromAPI { pf with Items := items2 },
    mapTrafficFilterFromAPI_some w hmac, mapTrafficFilterFromAPI_some _ hmac, ?_, rfl, rfl, rfl,
    hkeys, ?_⟩
  · simp [hpf]
  · intro hinj
    apply eq_of_map_eq_of_inj portKey _ _ hkeys
    intro a ha b hb hab
    have ha' := (portFilterFromAPI_perm pf).mem_iff.1 ha
    have hb' := ((portFilterFromAPI_perm { pf with Items := items2 }).trans
      (hperm.symm.map portItemFromAPI)).mem_iff.1 hb
    obtain ⟨x, hx, rfl⟩ := List.mem_map.1 ha'
    obtain ⟨y, hy, rfl⟩ := List.mem_map.1 hb'
    exact hinj x hx y hy hab

/-- C3, witness: the ports 443, 80 and 80, 443 are read as the same local
item sequence. -/
theorem port_items_order_independent_witness :
    (sampleWire
      [{ Type_ := "PORT_NUMBER", Value := 443, Start := 0, Stop := 0 },
        { Type_ := "PORT_NUMBER", Value := 80, Start := 0, Stop := 0 }]).PortFilter =
      some { Type_ := "PORTS", MatchOpposite := false, Items :=
        [{ Type_ := "PORT_NUMBER", Value := 443, Start := 0, Stop := 0 },
          { Type_ := "PORT_NUMBER", Value := 80, Start := 0, Stop := 0 }] } ∧
    List.Perm
      [({ Type_ := "PORT_NUMBER", Value := 443, Start := 0, Stop := 0 } : PortItem),
        { Type_ := "PORT_NUMBER", Value := 80, Start := 0, Stop := 0 }]
      [{ Type_ := "PORT_NUMBER", Value := 80, Start := 0, Stop := 0 },
        { Type_ := "PORT_NUMBER", Value := 443, Start := 0, Stop := 0 }] ∧
    macPanics GoValue.nil = false ∧
    ∃ m1 m2 p1 p2,
      mapTrafficFilterFromAPI (some (sampleWire
        [{ Type_ := "PORT_NUMBER", Value := 443, Start := 0, Stop := 0 },
          { Type_ := "PORT_NUMBER", Value := 80, Start := 0, Stop := 0 }])) =
        Except.ok (some m1) ∧
      mapTrafficFilterFromAPI (some (sampleWire
        [{ Type_ := "PORT_NUMBER", Value := 80, Start := 0, Stop := 0 },
          { Type_ := "PORT_NUMBER", Value := 443, Start := 0, Stop := 0 }])) =
        Except.ok (some m2) ∧
      m1.PortFilter = some p1 ∧ m2.PortFilter = some p2 ∧ p1.Items = p2.Items := by
  refine ⟨rfl, List.Perm.swap _ _ _, rfl, ?_⟩
  obtain ⟨m1, m2, p1, p2, h1, h2, h3, h4, _, _, _, h⟩ :=
    port_items_order_independent
      (sampleWire
        [{ Type_ := "PORT_NUMBER", Value := 443, Start := 0, Stop := 0 },
          { Type_ := "PORT_NUMBER", Value := 80, Start := 0, Stop := 0 }])
      { Type_ := "PORTS", MatchOpposite := false, Items :=
        [{ Type_ := "PORT_NUMBER", Value := 443, Start := 0, Stop := 0 },
          { Type_ := "PORT_NUMBER", Value := 80, Start := 0, Stop := 0 }] }
      [{ Type_ := "PORT_NUMBER", Value := 80, Start := 0, Stop := 0 },
        { Type_ := "PORT_NUMBER", Value := 443, Start := 0, Stop := 0 }]
      rfl (List.Perm.swap _ _ _) rfl
  exact ⟨m1, m2, p1, p2, h1, h2, h3, h4, h (by decide)⟩

/-- C4, failing input: the wire `MACAddressFilter` is the generic map decoded
from a JSON object whose `macAddresses` list holds the number 1; the unchecked
type assertion panics and no local model is returned. -/
theorem mac_generic_map_number_panics :
    mapTrafficFilterFromAPI (some sampleWireNumericMac) =
      Except.error "panic: interface conversion: interface \x7b\x7d is not string" := by
  rfl

/-- C5: whenever `mapTrafficFilterFromAPI` returns for a wire filter with a
port filter, the local port items are in ascending lexicographic order of
(Value, Start, Stop), a null field counting as 0, for every pair of items and
so for every adjacent pair; and it returns unless the wire MAC value is one of
those it panics on. -/
theorem port_items_sorted_on_read (w : TrafficFilter) (pf : PortFilter)
    (hpf : w.PortFilter = some pf) :
    (∀ r, mapTrafficFilterFromAPI (some w) = Except.ok r →
      ∃ m pfm, r = some m ∧ m.PortFilter = some pfm ∧
        pfm.Items.Pairwise (fun a b => tupleLE (portKey a) (portKey b)) ∧
        pfm.Items.Chain' (fun a b => tupleLE (portKey a) (portKey b))) ∧
    (macPanics w.MACAddressFilter = false →
      ∃ m, mapTrafficFilterFromAPI (some w) = Except.ok (some m)) := by
  constructor
  · intro r hr
    cases hmac : macPanics w.MACAddressFilter with
    | true =>
      obtain ⟨e, he⟩ := mapTrafficFilterFromAPI_panics w hmac
      rw [he] at hr
      cases hr
    | false =>
      rw [mapTrafficFilterFromAPI_some w hmac] at hr
      cases hr
      refine ⟨_, portFilterFromAPI pf, rfl, by simp [hpf], portFilterFromAPI_sorted pf,
        (portFilterFromAPI_sorted pf).chain'⟩
  · intro hmac
    exact ⟨_, mapTrafficFilterFromAPI_some w hmac⟩

/-- C5, witness: the wire items 443, the range 8000-8080 and 80 are read in
the order range, 80, 443. -/
theorem port_items_sorted_on_read_witness :
    (sampleWire
      [{ Type_ := "PORT_NUMBER", Value := 443, Start := 0, Stop := 0 },
        { Type_ := "PORT_NUMBER_RANGE", Value := 0, Start := 8000, Stop := 8080 },
        { Type_ := "PORT_NUMBER", Value := 80, Start := 0, Stop := 0 }]).PortFilter =
      some { Type_ := "PORTS", MatchOpposite := false, Items :=
        [{ Type_ := "PORT_NUMBER", Value := 443, Start := 0, Stop := 0 },
          { Type_ := "PORT_NUMBER_RANGE", Value := 0, Start := 8000, Stop := 8080 },
          { Type_ := "PORT_NUMBER", Value := 80, Start := 0, Stop := 0 }] } ∧
    ∃ m pfm,
      mapTrafficFilterFromAPI (some (sampleWire
        [{ Type_ := "PORT_NUMBER", Value := 443, Start := 0, Stop := 0 },
          { Type_ := "PORT_NUMBER_RANGE", Value := 0, Start := 8000, Stop := 8080 },
          { Type_ := "PORT_NUMBER", Value := 80, Start := 0, Stop := 0 }])) =
        Except.ok (some m) ∧
      m.PortFilter = some pfm ∧
      pfm.Items.map portKey = [(0, 8000, 8080), (80, 0, 0), (443, 0, 0)] ∧
      pfm.Items.Chain' (fun a b => tupleLE (portKey a) (portKey b)) := by
  refine ⟨rfl, ?_⟩
  obtain ⟨m, pfm, hm, hp, _, hc⟩ :=
    (port_items_sorted_on_read
      (sampleWire
        [{ Type_ := "PORT_NUMBER", Value := 443, Start := 0, Stop := 0 },
          { Type_ := "PORT_NUMBER_RANGE", Value := 0, Start := 8000, Stop := 8080 },
          { Type_ := "PORT_NUMBER", Value := 80, Start := 0, Stop := 0 }])
      _ rfl).1 _ rfl
  cases hm
  cases hp
  exact ⟨_, _, rfl, rfl, by decide, hc⟩

/-- C6: when one of the keys name, preset, number, value holds a non-empty
string, `mapProtocolFromAPI` returns the lower-cased value of the first such
key in that order; an earlier key always wins over a later one. -/
theorem protocol_key_priority (u : UnicodeTables) (m : GoMap)
    (before after : List String) (key v : String)
    (hkeys : ["name", "preset", "number", "value"] = before ++ key :: after)
    (hv : m.index key = GoValue.str v) (hne : v ≠ "")
    (hbefore : ∀ k ∈ before, ∀ w, m.index k = GoValue.str w → w = "") :
    mapProtocolFromAPI u (some m) = stringsToLower u v := by
  simp only [mapProtocolFromAPI]
  rw [hkeys, probeKeys_first m key v after hv hne before hbefore]

/-- C6, witness: with both name `TCP` and preset `WEB` present the name wins,
and the result is `tcp`. -/
theorem protocol_key_priority_witness :
    ["name", "preset", "number", "value"] = [] ++ "name" :: ["preset", "number", "value"] ∧
    GoMap.index [("preset", GoValue.str "WEB"), ("name", GoValue.str "TCP")] "name" =
      GoValue.str "TCP" ∧
    "TCP" ≠ "" ∧
    mapProtocolFromAPI goTables
      (some [("preset", GoValue.str "WEB"), ("name", GoValue.str "TCP")]) = "tcp" :=
  ⟨rfl, rfl, by decide,
    protocol_key_priority goTables [("preset", GoValue.str "WEB"), ("name", GoValue.str "TCP")]
      [] ["preset", "number", "value"] "name" "TCP" rfl rfl (by decide)
      (fun _ hk => absurd hk (List.not_mem_nil _))⟩

/-- C7: for a non-empty protocol the wire object has exactly one key: preset
with the upper-cased protocol when the upper-cased filter type is PRESET,
number with the protocol unchanged when it is PROTOCOL_NUMBER, and name with
the upper-cased protocol for every other filter type, the alias PROTOCOL in
any case included. -/
theorem protocol_dispatch (u : UnicodeTables) (filterType protocol : String)
    (hp : protocol ≠ "") :
    (stringsToUpper u filterType = "PRESET" →
      mapProtocolToAPI u filterType protocol =
        some [("preset", GoValue.str (stringsToUpper u protocol))]) ∧
    (stringsToUpper u filterType = "PROTOCOL_NUMBER" →
      mapProtocolToAPI u filterType protocol = some [("number", GoValue.str protocol)]) ∧
    (stringsToUpper u filterType ≠ "PRESET" →
      stringsToUpper u filterType ≠ "PROTOCOL_NUMBER" →
      mapProtocolToAPI u filterType protocol =
        some [("name", GoValue.str (stringsToUpper u protocol))]) ∧
    (stringsEqualFold u filterType "PROTOCOL" = true →
      mapProtocolToAPI u filterType protocol =
        some [("name", GoValue.str (stringsToUpper u protocol))]) := by
  rw [mapProtocolToAPI_dispatch u filterType protocol hp]
  refine ⟨fun h => by rw [if_pos h], fun h => ?_, fun h1 h2 => by rw [if_neg h1, if_neg h2],
    fun h => ?_⟩
  · have h1 : stringsToUpper u filterType ≠ "PRESET" := by rw [h]; decide
    rw [if_neg h1, if_pos h]
  · rw [if_neg (stringsToUpper_ne_of_equalFold u filterType "PRESET" h (by decide)),
      if_neg (stringsToUpper_ne_of_equalFold u filterType "PROTOCOL_NUMBER" h (by decide))]

/-- C7, witness: the four dispatch cases at the filter types `preset`,
`Protocol_Number`, `bogus` and `protocol`. -/
theorem protocol_dispatch_witness :
    "web" ≠ "" ∧
    mapProtocolToAPI goTables "preset" "web" = some [("preset", GoValue.str "WEB")] ∧
    mapProtocolToAPI goTables "Protocol_Number" "6" = some [("number", GoValue.str "6")] ∧
    mapProtocolToAPI goTables "bogus" "web" = some [("name", GoValue.str "WEB")] ∧
    mapProtocolToAPI goTables "protocol" "web" = some [("name", GoValue.str "WEB")] :=
  ⟨by decide,
    (protocol_dispatch goTables "preset" "web" (by decide)).1 (by decide),
    (protocol_dispatch goTables "Protocol_Number" "6" (by decide)).2.1 (by decide),
    (protocol_dispatch goTables "bogus" "web" (by decide)).2.2.1 (by decide) (by decide),
    (protocol_dispatch goTables "protocol" "web" (by decide)).2.2.2 (by decide)⟩

/-- C8: the empty protocol gives the absent wire object whatever the filter
type, and a protocol gives a present object exactly when it is not empty. -/
theorem protocol_empty_absent (u : UnicodeTables) (filterType protocol : String) :
    mapProtocolToAPI u filterType "" = none ∧
    ((mapProtocolToAPI u filterType protocol).isSome = true ↔ protocol ≠ "") := by
  constructor
  · simp [mapProtocolToAPI]
  · by_cases hp : protocol = ""
    · subst hp; simp [mapProtocolToAPI]
    · simp only [ne_eq, hp, not_false_eq_true, iff_true]
      rw [mapProtocolToAPI_dispatch u filterType protocol hp]
      split_ifs <;> rfl

/-- C9, counterexample: the number key holds the `float64` negative zero,
whose value equals the non-negative integer 0; the result is `-0`, not the
decimal string `0`. -/
theorem protocol_number_negative_zero :
    (∀ k ∈ ["name", "preset", "number", "value"], ∀ w,
      GoMap.index [("number", GoValue.float64 (GoFloat64.finite true 0 0))] k = GoValue.str w →
        w = "") ∧
    (GoFloat64.finite true 0 0).toRat = some ((0 : ℕ) : ℚ) ∧
    mapProtocolFromAPI goTables
      (some [("number", GoValue.float64 (GoFloat64.finite true 0 0))]) = "-0" ∧
    "-0" ≠ toString (0 : ℕ) := by
  refine ⟨?_, by simp [GoFloat64.toRat], rfl, by decide⟩
  intro k hk w
  simp only [List.mem_cons, List.mem_singleton, List.not_mem_nil, or_false] at hk
  rcases hk with rfl | rfl | rfl | rfl <;> simp [GoMap.index, List.lookup]

/-- C9, amended: when none of the keys name, preset, number, value holds a
non-empty string and number holds a `float64` with clear sign bit whose value
is the natural number n, the result is the decimal string of n; when number
holds no `float64` the result is the empty string. -/
theorem protocol_numeric_fallback (u : UnicodeTables) (m : GoMap)
    (hnone : ∀ k ∈ ["name", "preset", "number", "value"], ∀ w,
      m.index k = GoValue.str w → w = "") :
    (∀ (mant : ℕ) (exp : ℤ) (n : ℕ),
      m.index "number" = GoValue.float64 (GoFloat64.finite false mant exp) →
      (GoFloat64.finite false mant exp).toRat = some (n : ℚ) →
      mapProtocolFromAPI u (some m) = toString n) ∧
    ((∀ f, m.index "number" ≠ GoValue.float64 f) → mapProtocolFromAPI u (some m) = "") := by
  have hprobe := probeKeys_none m _ hnone
  constructor
  · intro mant exp n hnum hval
    have hq : (mant : ℚ) * (2 : ℚ) ^ exp = (n : ℚ) := by
      simpa [GoFloat64.toRat] using hval
    simp [mapProtocolFromAPI, hprobe, hnum, fmtSprintfF0, roundHalfEven_of_nat mant exp n hq]
  · intro hno
    cases hidx : m.index "number" with
    | float64 f => exact absurd hidx (hno f)
    | _ => simp [mapProtocolFromAPI, hprobe, hidx]

/-- C9, witness: the number 80.0, stored as 5 * 2^4, reads back as `80`. -/
theorem protocol_numeric_fallback_witness :
    (∀ k ∈ ["name", "preset", "number", "value"], ∀ w,
      GoMap.index [("number", GoValue.float64 (GoFloat64.finite false 5 4))] k = GoValue.str w →
        w = "") ∧
    (GoFloat64.finite false 5 4).toRat = some ((80 : ℕ) : ℚ) ∧
    mapProtocolFromAPI goTables
      (some [("number", GoValue.float64 (GoFloat64.finite false 5 4))]) = toString (80 : ℕ) :=
  have hnone : ∀ k ∈ ["name", "preset", "number", "value"], ∀ w,
      GoMap.index [("number", GoValue.float64 (GoFloat64.finite false 5 4))] k = GoValue.str w →
        w = "" := by
    intro k hk w
    simp only [List.mem_cons, List.mem_singleton, List.not_mem_nil, or_false] at hk
    rcases hk with rfl | rfl | rfl | rfl <;> simp [GoMap.index, List.lookup]
  have hval : (GoFloat64.finite false 5 4).toRat = some ((80 : ℕ) : ℚ) := by
    simp [GoFloat64.toRat]
    norm_num
  ⟨hnone, hval,
    (protocol_numeric_fallback goTables _ hnone).1 5 4 80 rfl hval⟩

/-- C10: for a local IP filter holding the pairwise distinct strings s1..sn,
the wire filter holds exactly n items in the same order, the i-th with Value
si and with Type SUBNET when si contains the rune `/` and IP_ADDRESS
otherwise; reading that wire filter back returns exactly the strings s1..sn. -/
theorem ip_subnet_type_derivation (tf : TrafficFilterModel) (f : IPAddressFilterModel)
    (ss : List String) (hf : tf.IPAddressFilter = some f)
    (hitems : f.Items = TfSet.known (ss.map StringValue)) (hdistinct : ss.Nodup) :
    ∃ w ipf m ipm,
      mapTrafficFilterToAPI (some tf) = some w ∧ w.IPAddressFilter = some ipf ∧
      ipf.Items = ss.map (fun s =>
        { Type_ := if '/' ∈ s.data then "SUBNET" else "IP_ADDRESS", Value := s }) ∧
      mapTrafficFilterFromAPI (some w) = Except.ok (some m) ∧
      m.IPAddressFilter = some ipm ∧ ipm.Items.Elements = ss.map StringValue := by
  have hel : f.Items.ElementsAs = some ss := by
    rw [hitems]
    exact knownStrings_map_value ss
  refine ⟨_, ipFilterToAPI f, _, ipFilterFromAPI (ipFilterToAPI f),
    mapTrafficFilterToAPI_some tf, by simp [hf], ?_,
    mapTrafficFilterFromAPI_some _ (macPanics_macValueToAPI tf), by simp [hf], ?_⟩
  · simp only [ipFilterToAPI, hel, Option.getD_some]
    apply List.map_congr_left
    intro s _
    by_cases hs : '/' ∈ s.data
    · simp [ipItemToAPI, (stringsContains_slash s).2 hs, hs]
    · have : stringsContains s "/" = false := by
        cases hc : stringsContains s "/" with
        | true => exact absurd ((stringsContains_slash s).1 hc) hs
        | false => rfl
      simp [ipItemToAPI, this, hs]
  · have hval : (ss.map ipItemToAPI).map (fun item => item.Value) = ss := by
      rw [List.map_map]
      exact (List.map_congr_left (fun s _ => rfl)).trans (List.map_id ss)
    simp only [ipFilterFromAPI, ipFilterToAPI, hel, Option.getD_some, hval]
    cases ss with
    | nil => rfl
    | cons a t => simp [appended, SetValueFrom, hdistinct, TfSet.Elements]

/-- C10, witness: the items 10.0.0.0/24 and 1.2.3.4 of the sample model are
written as a SUBNET and an IP_ADDRESS item and read back as the two plain
strings. -/
theorem ip_subnet_type_derivation_witness :
    ["10.0.0.0/24", "1.2.3.4"].Nodup ∧
    ∃ w ipf m ipm,
      mapTrafficFilterToAPI (some (sampleLocal [])) = some w ∧ w.IPAddressFilter = some ipf ∧
      ipf.Items =
        [{ Type_ := "SUBNET", Value := "10.0.0.0/24" },
          { Type_ := "IP_ADDRESS", Value := "1.2.3.4" }] ∧
      mapTrafficFilterFromAPI (some w) = Except.ok (some m) ∧
      m.IPAddressFilter = some ipm ∧
      ipm.Items.Elements = [StringValue "10.0.0.0/24", StringValue "1.2.3.4"] := by
  refine ⟨by decide, ?_⟩
  obtain ⟨w, ipf, m, ipm, h1, h2, h3, h4, h5, h6⟩ :=
    ip_subnet_type_derivation (sampleLocal []) _ ["10.0.0.0/24", "1.2.3.4"] rfl rfl
      (by decide)
  refine ⟨w, ipf, m, ipm, h1, h2, ?_, h4, h5, h6⟩
  rw [h3]
  decide

/-- C12, counterexample: a local model whose structured MACAddressFilter is
unset and whose scalar MACAddress is set; the wire MACAddressFilter is
present, it holds the scalar as a string. -/
theorem unset_mac_filter_present_on_wire :
    sampleScalarMac.MACAddressFilter = none ∧
    mapTrafficFilterToAPI (some sampleScalarMac) =
      some (sampleWireMac (GoValue.str "aa:bb:cc:dd:ee:ff")) ∧
    (sampleWireMac (GoValue.str "aa:bb:cc:dd:ee:ff")).MACAddressFilter ≠ GoValue.nil := by
  refine ⟨rfl, rfl, ?_⟩
  intro h
  cases h

/-- C12, amended: for every present local model the wire PortFilter,
IPAddressFilter, NetworkFilter and DomainFilter are absent exactly when the
local sub-filter of that name is unset; the wire MACAddressFilter is the
structured object exactly when the local MACAddressFilter is set, and it is
absent exactly when the local MACAddressFilter is unset and the scalar
MACAddress is null. -/
theorem absence_propagation_on_write (tf : TrafficFilterModel) :
    ∃ w, mapTrafficFilterToAPI (some tf) = some w ∧
      (w.PortFilter = none ↔ tf.PortFilter = none) ∧
      (w.IPAddressFilter = none ↔ tf.IPAddressFilter = none) ∧
      (w.NetworkFilter = none ↔ tf.NetworkFilter = none) ∧
      (w.DomainFilter = none ↔ tf.DomainFilter = none) ∧
      ((∃ f, w.MACAddressFilter = GoValue.macAddressFilter (some f)) ↔
        tf.MACAddressFilter ≠ none) ∧
      (w.MACAddressFilter = GoValue.nil ↔
        tf.MACAddressFilter = none ∧ tf.MACAddress.IsNull = true) := by
  refine ⟨_, mapTrafficFilterToAPI_some tf, ?_, ?_, ?_, ?_, ?_, ?_⟩
  · cases tf.PortFilter <;> simp
  · cases tf.IPAddressFilter <;> simp
  · cases tf.NetworkFilter <;> simp
  · cases tf.DomainFilter <;> simp
  · simp only [macValueToAPI]
    cases tf.MACAddressFilter with
    | some f => simp
    | none => cases tf.MACAddress <;> simp [TfString.IsNull]
  · simp only [macValueToAPI]
    cases tf.MACAddressFilter with
    | some f => simp
    | none => cases tf.MACAddress <;> simp [TfString.IsNull]

/-- C13, counterexample: the sample model with every sub-filter set and the
scalar MACAddress set to 11:22:33:44:55:66; the wire MACAddressFilter is the
structured object built from the local MACAddressFilter, not the scalar. -/
theorem scalar_mac_overwritten_by_structured :
    ({ sampleLocal [] with MACAddress := StringValue "11:22:33:44:55:66" } :
      TrafficFilterModel).MACAddress.IsNull = false ∧
    (mapTrafficFilterToAPI (some { sampleLocal [] with
        MACAddress := StringValue "11:22:33:44:55:66" })).map (fun w => w.MACAddressFilter) =
      some (GoValue.macAddressFilter (some { MACAddresses := some ["aa:bb:cc:dd:ee:ff"] })) ∧
    GoValue.macAddressFilter (some { MACAddresses := some ["aa:bb:cc:dd:ee:ff"] }) ≠
      GoValue.str "11:22:33:44:55:66" := by
  refine ⟨rfl, rfl, ?_⟩
  intro h
  cases h

/-- C13, amended: for every present local model, whichever of the port, IP,
network and domain filters are present: when the structured MACAddressFilter
is unset, the wire MACAddressFilter is the scalar MAC string if the scalar is
not null and is absent if the scalar is null; when the structured
MACAddressFilter is set, the wire value is the structured object whatever the
scalar holds. -/
theorem scalar_mac_on_write (tf : TrafficFilterModel) :
    ∃ w, mapTrafficFilterToAPI (some tf) = some w ∧
      (tf.MACAddressFilter = none → tf.MACAddress.IsNull = false →
        w.MACAddressFilter = GoValue.str tf.MACAddress.ValueString) ∧
      (tf.MACAddressFilter = none → ∀ s, tf.MACAddress = StringValue s →
        w.MACAddressFilter = GoValue.str s) ∧
      (tf.MACAddressFilter = none → tf.MACAddress.IsNull = true →
        w.MACAddressFilter = GoValue.nil) ∧
      (∀ f, tf.MACAddressFilter = some f →
        w.MACAddressFilter = GoValue.macAddressFilter (some (macFilterToAPI f))) := by
  refine ⟨_, mapTrafficFilterToAPI_some tf, ?_, ?_, ?_, ?_⟩
  · intro h1 h2
    simp [macValueToAPI, h1, h2]
  · intro h1 s h2
    simp [macValueToAPI, h1, h2, StringValue, TfString.IsNull, TfString.ValueString]
  · intro h1 h2
    simp [macValueToAPI, h1, h2]
  · intro f h1
    simp [macValueToAPI, h1]

/-- C13, witness: the model holding only the scalar MAC is written with that
string as its wire MACAddressFilter. -/
theorem scalar_mac_on_write_witness :
    sampleScalarMac.MACAddressFilter = none ∧
    sampleScalarMac.MACAddress = StringValue "aa:bb:cc:dd:ee:ff" ∧
    ∃ w, mapTrafficFilterToAPI (some sampleScalarMac) = some w ∧
      w.MACAddressFilter = GoValue.str "aa:bb:cc:dd:ee:ff" := by
  obtain ⟨w, hw, _, h, _, _⟩ := scalar_mac_on_write sampleScalarMac
  exact ⟨rfl, rfl, w, hw, h rfl _ rfl⟩

/-- C15: the wire PortFilter written for a local PortFilter has the same Type
and MatchOpposite and one wire item per local item in the same order, each
with the local Type and with Value, Start and Stop equal to the local number
when the local field is set and to 0 when it is null. -/
theorem port_items_on_write (tf : TrafficFilterModel) (pf : PortFilterModel)
    (hpf : tf.PortFilter = some pf) :
    ∃ w wpf, mapTrafficFilterToAPI (some tf) = some w ∧ w.PortFilter = some wpf ∧
      wpf.Type_ = pf.Type_.ValueString ∧ wpf.MatchOpposite = pf.MatchOpposite.ValueBool ∧
      wpf.Items.length = pf.Items.length ∧
      List.Forall₂ portItemWrittenAs pf.Items wpf.Items := by
  refine ⟨_, portFilterToAPI pf, mapTrafficFilterToAPI_some tf, by simp [hpf], rfl, rfl, ?_, ?_⟩
  · simp [portFilterToAPI]
  · exact forall₂_map_right _ _ portItemWrittenAs_toAPI pf.Items

/-- C15, witness: the port 443 followed by an item with no number set is
written as the items 443 and 0, in that order. -/
theorem port_items_on_write_witness :
    ∃ w wpf, mapTrafficFilterToAPI (some (sampleLocal
        [samplePortNumber ⟨443, by decide⟩,
          { Type_ := StringValue "PORT_NUMBER", Value := TfInt32.null, Start := TfInt32.null,
            Stop := TfInt32.null }])) = some w ∧
      w.PortFilter = some wpf ∧ wpf.Type_ = "PORTS" ∧ wpf.MatchOpposite = false ∧
      wpf.Items =
        [{ Type_ := "PORT_NUMBER", Value := 443, Start := 0, Stop := 0 },
          { Type_ := "PORT_NUMBER", Value := 0, Start := 0, Stop := 0 }] := by
  obtain ⟨w, wpf, h1, h2, h3, h4, _, _⟩ :=
    port_items_on_write (sampleLocal
      [samplePortNumber ⟨443, by decide⟩,
        { Type_ := StringValue "PORT_NUMBER", Value := TfInt32.null, Start := TfInt32.null,
          Stop := TfInt32.null }]) _ rfl
  refine ⟨w, wpf, h1, h2, h3, h4, ?_⟩
  rw [mapTrafficFilterToAPI_some] at h1
  cases h1
  cases h2
  rfl

/-- C16, counterexample: a wire port item whose Value is 4294967296, which is
not 0, is read as a local item whose Value is set to 0. -/
theorem port_value_beyond_int32_reads_zero :
    (4294967296 : Int) ≠ 0 ∧
    mapTrafficFilterFromAPI (some (sampleWire
      [{ Type_ := "PORT_NUMBER", Value := 4294967296, Start := 0, Stop := 0 }])) =
      Except.ok (some
        { Type_ := StringValue "CUSTOM", MACAddress := TfString.null,
          PortFilter := some
            { Type_ := StringValue "PORTS", MatchOpposite := BoolValue false,
              Items :=
                [{ Type_ := StringValue "PORT_NUMBER", Value := Int32Value ⟨0, by decide⟩,
                   Start := TfInt32.null, Stop := TfInt32.null }] },
          IPAddressFilter := none, MACAddressFilter := none, NetworkFilter := none,
          DomainFilter := none }) := by
  refine ⟨by decide, rfl⟩

/-- C16, amended: replacing, in any local port item, a Value, Start or Stop
that is set to 0 by null leaves the written wire filter unchanged; and the
local port items read from a wire filter are, up to their order, the wire
items read one by one, a field equal to 0 as null and a field that is not 0
and fits in 32 bits as a set field with that number. -/
theorem zero_means_absent (tf : TrafficFilterModel) (pf : PortFilterModel)
    (before after : List PortItemModel) (item : PortItemModel) (w : TrafficFilter)
    (wpf : PortFilter) (hw : w.PortFilter = some wpf) (hmac : macPanics w.MACAddressFilter = false) :
    mapTrafficFilterToAPI (some { tf with PortFilter := some { pf with
        Items := before ++ { item with Value := Int32Value ⟨0, by decide⟩ } :: after } }) =
      mapTrafficFilterToAPI (some { tf with PortFilter := some { pf with
        Items := before ++ { item with Value := TfInt32.null } :: after } }) ∧
    mapTrafficFilterToAPI (some { tf with PortFilter := some { pf with
        Items := before ++ { item with Start := Int32Value ⟨0, by decide⟩ } :: after } }) =
      mapTrafficFilterToAPI (some { tf with PortFilter := some { pf with
        Items := before ++ { item with Start := TfInt32.null } :: after } }) ∧
    mapTrafficFilterToAPI (some { tf with PortFilter := some { pf with
        Items := before ++ { item with Stop := Int32Value ⟨0, by decide⟩ } :: after } }) =
      mapTrafficFilterToAPI (some { tf with PortFilter := some { pf with
        Items := before ++ { item with Stop := TfInt32.null } :: after } }) ∧
    ∃ m pfm images, mapTrafficFilterFromAPI (some w) = Except.ok (some m) ∧
      m.PortFilter = some pfm ∧ List.Forall₂ portItemReadAs wpf.Items images ∧
      pfm.Items.Perm images := by
  obtain ⟨h1, h2, h3⟩ := portItemToAPI_zero_null item
  refine ⟨?_, ?_, ?_, ?_⟩
  · simp only [mapTrafficFilterToAPI_some, macValueToAPI, Option.map_some', portFilterToAPI,
      List.map_append, List.map_cons, h1]
  · simp only [mapTrafficFilterToAPI_some, macValueToAPI, Option.map_some', portFilterToAPI,
      List.map_append, List.map_cons, h2]
  · simp only [mapTrafficFilterToAPI_some, macValueToAPI, Option.map_some', portFilterToAPI,
      List.map_append, List.map_cons, h3]
  · exact ⟨_, portFilterFromAPI wpf, wpf.Items.map portItemFromAPI,
      mapTrafficFilterFromAPI_some w hmac, by simp [hw],
      forall₂_map_right _ _ portItemReadAs_fromAPI wpf.Items, portFilterFromAPI_perm wpf⟩

/-- C16, witness: in the sample model a port item with Value set to 0 and one
with Value null are written alike, and the wire items 80 and 0 are read as a
set 80 and a null. -/
theorem zero_means_absent_witness :
    (sampleWire
      [{ Type_ := "PORT_NUMBER", Value := 80, Start := 0, Stop := 0 },
        { Type_ := "PORT_NUMBER", Value := 0, Start := 0, Stop := 0 }]).PortFilter =
      some { Type_ := "PORTS", MatchOpposite := false, Items :=
        [{ Type_ := "PORT_NUMBER", Value := 80, Start := 0, Stop := 0 },
          { Type_ := "PORT_NUMBER", Value := 0, Start := 0, Stop := 0 }] } ∧
    macPanics GoValue.nil = false ∧
    mapTrafficFilterToAPI (some (sampleLocal [samplePortNumber ⟨0, by decide⟩])) =
      mapTrafficFilterToAPI (some (sampleLocal
        [{ Type_ := StringValue "PORT_NUMBER", Value := TfInt32.null, Start := TfInt32.null,
           Stop := TfInt32.null }])) ∧
    ∃ m pfm images, mapTrafficFilterFromAPI (some (sampleWire
        [{ Type_ := "PORT_NUMBER", Value := 80, Start := 0, Stop := 0 },
          { Type_ := "PORT_NUMBER", Value := 0, Start := 0, Stop := 0 }])) =
        Except.ok (some m) ∧
      m.PortFilter = some pfm ∧
      List.Forall₂ portItemReadAs
        [{ Type_ := "PORT_NUMBER", Value := 80, Start := 0, Stop := 0 },
          { Type_ := "PORT_NUMBER", Value := 0, Start := 0, Stop := 0 }] images ∧
      pfm.Items.Perm images := by
  have h := zero_means_absent (sampleLocal [])
    { Type_ := StringValue "PORTS", MatchOpposite := BoolValue false, Items := [] } [] []
    (samplePortNumber ⟨443, by decide⟩)
    (sampleWire
      [{ Type_ := "PORT_NUMBER", Value := 80, Start := 0, Stop := 0 },
        { Type_ := "PORT_NUMBER", Value := 0, Start := 0, Stop := 0 }])
    _ rfl rfl
  exact ⟨rfl, rfl, h.1, h.2.2.2⟩

/-- C17: `mapTrafficFilterToAPI` returns absent exactly when its input is
absent, `mapTrafficFilterFromAPI` returns absent exactly when its input is
absent, `mapProtocolFromAPI` returns the empty string for an absent object,
and for a present input both traffic mappers copy the Type string as it is. -/
theorem null_propagation (u : UnicodeTables) (tf : Option TrafficFilterModel)
    (w : Option TrafficFilter) :
    (mapTrafficFilterToAPI tf = none ↔ tf = none) ∧
    (mapTrafficFilterFromAPI w = Except.ok none ↔ w = none) ∧
    mapProtocolFromAPI u none = "" ∧
    (∀ t s, tf = some t → t.Type_ = StringValue s →
      ∃ x, mapTrafficFilterToAPI tf = some x ∧ x.Type_ = s) ∧
    (∀ x m, w = some x → mapTrafficFilterFromAPI w = Except.ok (some m) →
      m.Type_ = StringValue x.Type_) ∧
    (∀ x, w = some x → macPanics x.MACAddressFilter = false →
      ∃ m, mapTrafficFilterFromAPI w = Except.ok (some m) ∧ m.Type_ = StringValue x.Type_) := by
  refine ⟨?_, ?_, rfl, ?_, ?_, ?_⟩
  · cases tf with
    | none => simp [mapTrafficFilterToAPI]
    | some t => simp [mapTrafficFilterToAPI_some]
  · cases w with
    | none => simp [mapTrafficFilterFromAPI]
    | some x =>
      simp only [reduceCtorEq, iff_false]
      intro h
      cases hmac : macPanics x.MACAddressFilter with
      | true =>
        obtain ⟨e, he⟩ := mapTrafficFilterFromAPI_panics x hmac
        rw [he] at h
        cases h
      | false =>
        rw [mapTrafficFilterFromAPI_some x hmac] at h
        cases h
  · intro t s ht hs
    subst ht
    exact ⟨_, mapTrafficFilterToAPI_some t, by simp [hs, StringValue, TfString.ValueString]⟩
  · intro x m hx hm
    subst hx
    cases hmac : macPanics x.MACAddressFilter with
    | true =>
      obtain ⟨e, he⟩ := mapTrafficFilterFromAPI_panics x hmac
      rw [he] at hm
      cases hm
    | false =>
      rw [mapTrafficFilterFromAPI_some x hmac] at hm
      cases hm
      rfl
  · intro x hx hmac
    subst hx
    exact ⟨_, mapTrafficFilterFromAPI_some x hmac, rfl⟩

/-- C17, witness: the sample model and the sample wire filter, both of Type
CUSTOM, are mapped to present values of Type CUSTOM. -/
theorem null_propagation_witness :
    (∃ x, mapTrafficFilterToAPI (some (sampleLocal [])) = some x ∧ x.Type_ = "CUSTOM") ∧
    (∃ m, mapTrafficFilterFromAPI (some (sampleWire [])) = Except.ok (some m) ∧
      m.Type_ = StringValue "CUSTOM") :=
  ⟨(null_propagation goTables (some (sampleLocal [])) (some (sampleWire []))).2.2.2.1
      (sampleLocal []) "CUSTOM" rfl rfl,
    (null_propagation goTables (some (sampleLocal [])) (some (sampleWire []))).2.2.2.2.2
      (sampleWire []) rfl rfl⟩

/-- C18: after each of the handlers Create, Read, Update and Delete the
SiteID of the client is the one it had before the handler was called,
whatever the plan or state holds as site, whether the transport call succeeds
or fails, and whatever the transport call does to the client. -/
theorem site_id_restored (client : Client) (req : GetResult)
    (CreateDNSPolicy : Client → DNSPolicy → Except String DNSPolicy × Client)
    (GetDNSPolicy : Client → String → Except String DNSPolicy × Client)
    (UpdateDNSPolicy : Client → String → DNSPolicy → Except String DNSPolicy × Client)
    (DeleteDNSPolicy : Client → String → Option String × Client) :
    (DNSPolicyResource.Create client req CreateDNSPolicy).1.SiteID = client.SiteID ∧
    (DNSPolicyResource.Read client req GetDNSPolicy).1.SiteID = client.SiteID ∧
    (DNSPolicyResource.Update client req UpdateDNSPolicy).1.SiteID = client.SiteID ∧
    (DNSPolicyResource.Delete client req DeleteDNSPolicy).1.SiteID = client.SiteID := by
  refine ⟨?_, ?_, ?_, ?_⟩
  · simp only [DNSPolicyResource.Create]
    split
    · rfl
    · split <;> rfl
  · simp only [DNSPolicyResource.Read]
    split
    · rfl
    · split <;> rfl
  · simp only [DNSPolicyResource.Update]
    split
    · rfl
    · split <;> rfl
  · simp only [DNSPolicyResource.Delete]
    split
    · rfl
    · split <;> rfl

/-- C19: whenever `mapTrafficFilterFromAPI` returns for a wire filter with a
port filter, the local port items are a rearrangement of the wire items mapped
one by one: the same number of items and every item as often as before. -/
theorem sorting_loses_nothing (w : TrafficFilter) (pf : PortFilter)
    (hpf : w.PortFilter = some pf) :
    (∀ r, mapTrafficFilterFromAPI (some w) = Except.ok r →
      ∃ m pfm, r = some m ∧ m.PortFilter = some pfm ∧
        pfm.Items.Perm (pf.Items.map portItemFromAPI) ∧
        pfm.Items.length = pf.Items.length ∧
        ∀ x, pfm.Items.count x = (pf.Items.map portItemFromAPI).count x) ∧
    (macPanics w.MACAddressFilter = false →
      ∃ m, mapTrafficFilterFromAPI (some w) = Except.ok (some m)) := by
  constructor
  · intro r hr
    cases hmac : macPanics w.MACAddressFilter with
    | true =>
      obtain ⟨e, he⟩ := mapTrafficFilterFromAPI_panics w hmac
      rw [he] at hr
      cases hr
    | false =>
      rw [mapTrafficFilterFromAPI_some w hmac] at hr
      cases hr
      have hperm := portFilterFromAPI_perm pf
      refine ⟨_, portFilterFromAPI pf, rfl, by simp [hpf], hperm, ?_, fun x => hperm.count_eq x⟩
      simpa using hperm.length_eq
  · intro hmac
    exact ⟨_, mapTrafficFilterFromAPI_some w hmac⟩

/-- C19, witness: the wire items 443, 80, 443 are read as three items, the
port 443 twice and the port 80 once. -/
theorem sorting_loses_nothing_witness :
    ∃ m pfm, mapTrafficFilterFromAPI (some (sampleWire
        [{ Type_ := "PORT_NUMBER", Value := 443, Start := 0, Stop := 0 },
          { Type_ := "PORT_NUMBER", Value := 80, Start := 0, Stop := 0 },
          { Type_ := "PORT_NUMBER", Value := 443, Start := 0, Stop := 0 }])) =
        Except.ok (some m) ∧
      m.PortFilter = some pfm ∧ pfm.Items.length = 3 ∧
      pfm.Items.count (samplePortNumber ⟨443, by decide⟩) = 2 ∧
      pfm.Items.count (samplePortNumber ⟨80, by decide⟩) = 1 := by
  obtain ⟨m, pfm, hm, hp, _, hl, hc⟩ :=
    (sorting_loses_nothing
      (sampleWire
        [{ Type_ := "PORT_NUMBER", Value := 443, Start := 0, Stop := 0 },
          { Type_ := "PORT_NUMBER", Value := 80, Start := 0, Stop := 0 },
          { Type_ := "PORT_NUMBER", Value := 443, Start := 0, Stop := 0 }])
      _ rfl).1 _ rfl
  cases hm
  exact ⟨_, pfm, rfl, hp, hl, by rw [hc]; decide, by rw [hc]; decide⟩

/-- C20: when the state is decoded without error and the transport call
succeeds, the state written by `Read` has the remote type, domain and enabled
flag; its target, ip address, cname and text are the remote strings when
these are not empty and the prior values when they are empty; its weight,
port and ttl are the remote numbers when these are not 0 and the prior values
when they are 0; its priority is the remote MX priority for an MX_RECORD and
the remote SRV priority for an SRV_RECORD when that number is not 0, and the
prior value when it is 0 or the type is neither. -/
theorem read_never_clears (client client' : Client) (req : GetResult)
    (GetDNSPolicy : Client → String → Except String DNSPolicy × Client) (policy : DNSPolicy)
    (hdiags : HasError req.diags = false)
    (hget : GetDNSPolicy
      (if !req.model.SiteID.IsNull then { client with SiteID := req.model.SiteID.ValueString }
        else client) req.model.ID.ValueString = (Except.ok policy, client')) :
    ∃ st, (DNSPolicyResource.Read client req GetDNSPolicy).2.State = some st ∧
      st.Type_ = StringValue policy.Type_ ∧ st.Domain = StringValue policy.Domain ∧
      st.Enabled = BoolValue policy.Enabled ∧
      (policy.Target = "" → st.Target = req.model.Target) ∧
      (policy.Target ≠ "" → st.Target = StringValue policy.Target) ∧
      (policy.IPv4Address = "" → st.IPAddress = req.model.IPAddress) ∧
      (policy.IPv4Address ≠ "" → st.IPAddress = StringValue policy.IPv4Address) ∧
      (policy.CNAME = "" → st.CNAME = req.model.CNAME) ∧
      (policy.CNAME ≠ "" → st.CNAME = StringValue policy.CNAME) ∧
      (policy.TXTText = "" → st.Text = req.model.Text) ∧
      (policy.TXTText ≠ "" → st.Text = StringValue policy.TXTText) ∧
      (policy.SRVWeight = 0 → st.Weight = req.model.Weight) ∧
      (policy.SRVWeight ≠ 0 → st.Weight = Int64Value policy.SRVWeight) ∧
      (policy.SRVPort = 0 → st.Port = req.model.Port) ∧
      (policy.SRVPort ≠ 0 → st.Port = Int64Value policy.SRVPort) ∧
      (policy.TTL = 0 → st.TTL = req.model.TTL) ∧
      (policy.TTL ≠ 0 → st.TTL = Int64Value policy.TTL) ∧
      (policy.Type_ = "MX_RECORD" → policy.MXPriority ≠ 0 →
        st.Priority = Int64Value policy.MXPriority) ∧
      (policy.Type_ = "MX_RECORD" → policy.MXPriority = 0 → st.Priority = req.model.Priority) ∧
      (policy.Type_ = "SRV_RECORD" → policy.SRVPriority ≠ 0 →
        st.Priority = Int64Value policy.SRVPriority) ∧
      (policy.Type_ = "SRV_RECORD" → policy.SRVPriority = 0 →
        st.Priority = req.model.Priority) ∧
      (policy.Type_ ≠ "MX_RECORD" → policy.Type_ ≠ "SRV_RECORD" →
        st.Priority = req.model.Priority) := by
  obtain ⟨_, _, hty, hdo, hen, hta, hip, hcn, hpr, hwe, hpo, hte, htt⟩ :=
    updateState_fields req.model policy
  refine ⟨updateState req.model policy, ?_, hty, hdo, hen, ?_, ?_, ?_, ?_, ?_, ?_, ?_, ?_, ?_, ?_,
    ?_, ?_, ?_, ?_, ?_, ?_, ?_, ?_, ?_⟩
  · simp only [DNSPolicyResource.Read, hdiags, Bool.false_eq_true, if_false, hget]
  · intro h; rw [hta]; simp [h]
  · intro h; rw [hta]; simp [h]
  · intro h; rw [hip]; simp [h]
  · intro h; rw [hip]; simp [h]
  · intro h; rw [hcn]; simp [h]
  · intro h; rw [hcn]; simp [h]
  · intro h; rw [hte]; simp [h]
  · intro h; rw [hte]; simp [h]
  · intro h; rw [hwe]; simp [h]
  · intro h; rw [hwe]; simp [h]
  · intro h; rw [hpo]; simp [h]
  · intro h; rw [hpo]; simp [h]
  · intro h; rw [htt]; simp [h]
  · intro h; rw [htt]; simp [h]
  · intro h1 h2; rw [hpr]; simp [h1, h2]
  · intro h1 h2; rw [hpr]; simp [h1, h2]
  · intro h1 h2; rw [hpr]; simp [h1, h2]
  · intro h1 h2; rw [hpr]; simp [h1, h2]
  · intro h1 h2; rw [hpr]; simp [h1, h2]

/-- C20, witness: a prior A-record state read against a remote MX policy
whose target, cname, text, weight and port are empty or 0: those five fields
keep their prior values, the address, the ttl and the priority take the remote
values, and type, domain and enabled are the remote ones. -/
theorem read_never_clears_witness :
    HasError ([] : List Diagnostic) = false ∧
    (DNSPolicyResource.Read { SiteID := "default" } { model := sampleState, diags := [] }
      sampleGet).2.State =
      some
        { ID := StringValue "dns-1",
          SiteID := StringValue "site-b",
          Type_ := StringValue "MX_RECORD",
          Domain := StringValue "new.example.com",
          Enabled := BoolValue true,
          Target := StringValue "10.0.0.1",
          IPAddress := StringValue "192.0.2.7",
          CNAME := StringValue "alias.example.com",
          Priority := Int64Value 5,
          Weight := Int64Value 20,
          Port := Int64Value 5060,
          Text := StringValue "v=spf1",
          TTL := Int64Value 60 } := by
  obtain ⟨st, h, _⟩ :=
    read_never_clears { SiteID := "default" } { SiteID := "elsewhere" }
      { model := sampleState, diags := [] } sampleGet samplePolicy rfl rfl
  refine ⟨rfl, ?_⟩
  rw [h]
  have h' : (DNSPolicyResource.Read { SiteID := "default" } { model := sampleState, diags := [] }
      sampleGet).2.State = some (updateState sampleState samplePolicy) := rfl
  rw [h] at h'
  rw [h']
  decide

end UnifiFirewall
